import Mathlib

/-!
Verification of the Nuvei REST API 1.0 emulator's checksum and
scenario-orchestration subsystem.

This file is a shallow embedding, in Lean 4, of the TypeScript sources:

  * `src/checksum.ts`       — checksum engine (hash primitive, spec-based
                              checksum, verification, PAN masking);
  * `src/endpointSpecs.ts`  — the endpoint specification registry;
  * the scenario execution engine (`executeStep` / `executeScenario` /
    `maskSensitiveData` / `resolveTemplate` / `extractFromResponse`);
  * the Cloudflare-worker backend (webhook store and DMN classification,
    the 3DS payment orchestrator's step classification and retained
    request-body logs).

Conventions of the embedding:

  * JavaScript runtime values are modelled by the `Json` type below
    (null / boolean / number / string / array / object).  Numbers are
    modelled as `Int`; none of the verified code does non-integral or
    overflow-sensitive arithmetic on data values.
  * `undefined` is modelled as `Option.none` wherever it matters
    (property lookup, extraction results); object fields are an ordered
    association list, mirroring JavaScript's insertion-order semantics
    for plain string keys.
  * The SHA-256 / SHA-1 digests (`crypto.subtle.digest` in the source)
    are implemented concretely, byte-for-byte, so checksum values can be
    computed inside proofs; they are checked against the FIPS 180 test
    vectors.
  * Wall-clock and randomness sources (`Date.now`, `Math.random`,
    `generateTimestamp`, `generateClientRequestId`, `fetch`) are
    modelled as explicit oracle inputs.
-/

set_option maxRecDepth 100000

/-! ## JavaScript value model -/

mutual
/-- A JavaScript/JSON runtime value.  Object fields are an ordered
association list (JS insertion order). -/
inductive Json where
  | jnull
  | jbool (b : Bool)
  | jnum (n : Int)
  | jstr (s : String)
  | jarr (elems : JsonList)
  | jobj (fields : JsonFields)
  deriving Repr, DecidableEq
/-- The elements of a JSON array. -/
inductive JsonList where
  | nil
  | cons (hd : Json) (tl : JsonList)
  deriving Repr, DecidableEq
/-- The fields of a JSON object, in insertion order. -/
inductive JsonFields where
  | nil
  | cons (key : String) (val : Json) (tl : JsonFields)
  deriving Repr, DecidableEq
end

/-- Build the array-element list from a Lean list. -/
def JsonList.ofList : List Json → JsonList
  | [] => .nil
  | v :: t => .cons v (ofList t)

/-- Build an ordered field list from a Lean list of key/value pairs. -/
def JsonFields.ofList : List (String × Json) → JsonFields
  | [] => .nil
  | (k, v) :: t => .cons k v (ofList t)

/-- Convenience constructor for a JSON object literal. -/
def Json.objOf (l : List (String × Json)) : Json := .jobj (JsonFields.ofList l)

/-- Convenience constructor for a JSON array literal. -/
def Json.arrOf (l : List Json) : Json := .jarr (JsonList.ofList l)

/-- Property lookup on an object's field list: the first binding wins
(JS objects cannot hold duplicate keys; the embedding keeps the first). -/
def JsonFields.get : JsonFields → String → Option Json
  | .nil, _ => none
  | .cons k v t, key => if k = key then some v else t.get key

/-- Property assignment `obj[key] = val`: overwrite in place if the key
exists (keeping its position), else append — JS object semantics. -/
def JsonFields.set : JsonFields → String → Json → JsonFields
  | .nil, key, val => .cons key val .nil
  | .cons k v t, key, val =>
      if k = key then .cons k val t else .cons k v (t.set key val)

/-- The `in` operator: key presence, regardless of the value. -/
def JsonFields.hasKey (fs : JsonFields) (key : String) : Bool :=
  (fs.get key).isSome

/-- Number of bindings (used for bounds in fuel computations). -/
def JsonFields.size : JsonFields → Nat
  | .nil => 0
  | .cons _ _ t => t.size + 1

/-- Element lookup in an array by position. -/
def JsonList.get? : JsonList → Nat → Option Json
  | .nil, _ => none
  | .cons v _, 0 => some v
  | .cons _ t, n + 1 => t.get? n

/-- Expose an array's elements as indexed object fields ("0", "1", …) —
the shape `Object.entries` / object spread sees for a JS array. -/
def JsonList.toIndexedFields (start : Nat) : JsonList → JsonFields
  | .nil => .nil
  | .cons v t => .cons (toString start) v (t.toIndexedFields (start + 1))

/-- JavaScript truthiness of a possibly-`undefined` value: `undefined`,
`null`, `false`, `0` and the empty string are falsy; arrays and objects
are always truthy. -/
def jsTruthy : Option Json → Bool
  | none => false
  | some .jnull => false
  | some (.jbool b) => b
  | some (.jnum n) => n != 0
  | some (.jstr s) => s != ""
  | some (.jarr _) => true
  | some (.jobj _) => true

mutual
/-- The JS `String(x)` conversion: `null` prints `"null"`, booleans print
their names, arrays join their elements with `","` (with `null` elements
printing empty inside arrays), plain objects print `"[object Object]"`. -/
def jsToString : Json → String
  | .jnull => "null"
  | .jbool b => if b then "true" else "false"
  | .jnum n => toString n
  | .jstr s => s
  | .jarr xs => jsArrToString xs
  | .jobj _ => "[object Object]"
/-- `Array.prototype.join(",")` over the elements. -/
def jsArrToString : JsonList → String
  | .nil => ""
  | .cons v .nil => jsArrElemToString v
  | .cons v t => jsArrElemToString v ++ "," ++ jsArrToString t
/-- Inside an array join, `null` (and `undefined`) elements print empty;
otherwise the element prints as `String(x)` (spelled out so the mutual
recursion stays structural). -/
def jsArrElemToString : Json → String
  | .jnull => ""
  | .jbool b => if b then "true" else "false"
  | .jnum n => toString n
  | .jstr s => s
  | .jarr xs => jsArrToString xs
  | .jobj _ => "[object Object]"
end

/-- Property access `v[key]` on an arbitrary value, as used behind the
guards `v && typeof v === 'object'` or `v?.` in the source: objects look
the key up, arrays accept canonical numeric indices, and primitives (and
`null`, which the source's guards exclude before access) yield
`undefined`. -/
def jsMember (v : Json) (key : String) : Option Json :=
  match v with
  | .jobj fs => fs.get key
  | .jarr xs =>
      match key.toNat? with
      | some i => xs.get? i
      | none => none
  | _ => none

/-- Strict equality `v === s` of a possibly-`undefined` value against a
string literal. -/
def jsStrictEqStr (v : Option Json) (s : String) : Bool :=
  match v with
  | some (.jstr t) => t == s
  | _ => false

/-- ASCII model of `String.prototype.toLowerCase` (all strings compared
this way in the source are hex digests). -/
def jsToLowerCase (s : String) : String := String.mk (s.data.map Char.toLower)

/-! ## SHA-256 and SHA-1 (the `crypto.subtle.digest` primitives)

The source's `sha256` / `sha1` helpers UTF-8–encode the message, digest
it, and print the digest bytes as lowercase hex.  Implemented here on
`Nat` with explicit `% 2^32` reductions. -/

/-- `2^32`, the word modulus of both digests. -/
def w32mod : Nat := 4294967296

/-- Right-rotate a 32-bit word by `n`. -/
def rotr32 (n x : Nat) : Nat := ((x >>> n) ||| (x <<< (32 - n))) % w32mod

/-- Left-rotate a 32-bit word by `n` (used by SHA-1). -/
def rotl32 (n x : Nat) : Nat := ((x <<< n) % w32mod) ||| (x >>> (32 - n))

/-- Bitwise complement on 32-bit words. -/
def wnot (x : Nat) : Nat := 4294967295 ^^^ x

/-- SHA-256 Σ0. -/
def bigSig0 (x : Nat) : Nat := (rotr32 2 x) ^^^ (rotr32 13 x) ^^^ (rotr32 22 x)

/-- SHA-256 Σ1. -/
def bigSig1 (x : Nat) : Nat := (rotr32 6 x) ^^^ (rotr32 11 x) ^^^ (rotr32 25 x)

/-- SHA-256 σ0. -/
def smallSig0 (x : Nat) : Nat := (rotr32 7 x) ^^^ (rotr32 18 x) ^^^ (x >>> 3)

/-- SHA-256 σ1. -/
def smallSig1 (x : Nat) : Nat := (rotr32 17 x) ^^^ (rotr32 19 x) ^^^ (x >>> 10)

/-- The choice function `Ch`. -/
def chFn (x y z : Nat) : Nat := (x &&& y) ^^^ ((wnot x) &&& z)

/-- The majority function `Maj`. -/
def majFn (x y z : Nat) : Nat := (x &&& y) ^^^ (x &&& z) ^^^ (y &&& z)

/-- The SHA-256 round constants. -/
def sha256K : List Nat :=
  [0x428A2F98, 0x71374491, 0xB5C0FBCF, 0xE9B5DBA5,
   0x3956C25B, 0x59F111F1, 0x923F82A4, 0xAB1C5ED5,
   0xD807AA98, 0x12835B01, 0x243185BE, 0x550C7DC3,
   0x72BE5D74, 0x80DEB1FE, 0x9BDC06A7, 0xC19BF174,
   0xE49B69C1, 0xEFBE4786, 0x0FC19DC6, 0x240CA1CC,
   0x2DE92C6F, 0x4A7484AA, 0x5CB0A9DC, 0x76F988DA,
   0x983E5152, 0xA831C66D, 0xB00327C8, 0xBF597FC7,
   0xC6E00BF3, 0xD5A79147, 0x06CA6351, 0x14292967,
   0x27B70A85, 0x2E1B2138, 0x4D2C6DFC, 0x53380D13,
   0x650A7354, 0x766A0ABB, 0x81C2C92E, 0x92722C85,
   0xA2BFE8A1, 0xA81A664B, 0xC24B8B70, 0xC76C51A3,
   0xD192E819, 0xD6990624, 0xF40E3585, 0x106AA070,
   0x19A4C116, 0x1E376C08, 0x2748774C, 0x34B0BCB5,
   0x391C0CB3, 0x4ED8AA4A, 0x5B9CCA4F, 0x682E6FF3,
   0x748F82EE, 0x78A5636F, 0x84C87814, 0x8CC70208,
   0x90BEFFFA, 0xA4506CEB, 0xBEF9A3F7, 0xC67178F2]

/-- The SHA-256 initial hash state. -/
def sha256H0 : List Nat :=
  [0x6A09E667, 0xBB67AE85, 0x3C6EF372, 0xA54FF53A,
   0x510E527F, 0x9B05688C, 0x1F83D9AB, 0x5BE0CD19]

/-- Extend the 16 message-schedule words by `fuel` further words. -/
def sha256Extend : Nat → List Nat → List Nat
  | 0, ws => ws
  | fuel + 1, ws =>
      let t := ws.length
      let w := (smallSig1 (ws.getD (t - 2) 0) + ws.getD (t - 7) 0 +
                smallSig0 (ws.getD (t - 15) 0) + ws.getD (t - 16) 0) % w32mod
      sha256Extend fuel (ws ++ [w])

/-- One SHA-256 compression round on the state tuple (a,…,h). -/
def sha256Round (k w : Nat)
    (s : Nat × Nat × Nat × Nat × Nat × Nat × Nat × Nat) :
    Nat × Nat × Nat × Nat × Nat × Nat × Nat × Nat :=
  let (a, b, c, d, e, f, g, h) := s
  let t1 := (h + bigSig1 e + chFn e f g + k + w) % w32mod
  let t2 := (bigSig0 a + majFn a b c) % w32mod
  ((t1 + t2) % w32mod, a, b, c, (d + t1) % w32mod, e, f, g)

/-- Run the compression rounds over the paired constants and schedule. -/
def sha256Rounds : List (Nat × Nat) →
    Nat × Nat × Nat × Nat × Nat × Nat × Nat × Nat →
    Nat × Nat × Nat × Nat × Nat × Nat × Nat × Nat
  | [], s => s
  | (k, w) :: rest, s => sha256Rounds rest (sha256Round k w s)

/-- Process one 16-word block, updating the running hash state. -/
def sha256Block (H : List Nat) (block : List Nat) : List Nat :=
  let W := sha256Extend 48 block
  let h0 := H.getD 0 0
  let h1 := H.getD 1 0
  let h2 := H.getD 2 0
  let h3 := H.getD 3 0
  let h4 := H.getD 4 0
  let h5 := H.getD 5 0
  let h6 := H.getD 6 0
  let h7 := H.getD 7 0
  let (a, b, c, d, e, f, g, h) :=
    sha256Rounds (sha256K.zip W) (h0, h1, h2, h3, h4, h5, h6, h7)
  [(h0 + a) % w32mod, (h1 + b) % w32mod, (h2 + c) % w32mod, (h3 + d) % w32mod,
   (h4 + e) % w32mod, (h5 + f) % w32mod, (h6 + g) % w32mod, (h7 + h) % w32mod]

/-- Group bytes into big-endian 32-bit words (input length is always a
multiple of 4 after padding). -/
def bytesToWords : List Nat → List Nat
  | a :: b :: c :: d :: rest => (((a * 256 + b) * 256 + c) * 256 + d) :: bytesToWords rest
  | _ => []

/-- Fuel-driven grouping of the word stream into 16-word blocks. -/
def chunksGo : Nat → List Nat → List (List Nat)
  | 0, _ => []
  | _, [] => []
  | fuel + 1, ws => ws.take 16 :: chunksGo fuel (ws.drop 16)

/-- Group a word stream into 16-word blocks. -/
def chunks16 (ws : List Nat) : List (List Nat) := chunksGo ws.length ws

/-- The 8-byte big-endian encoding of the message bit length. -/
def lenBytes8 (n : Nat) : List Nat :=
  [(n >>> 56) % 256, (n >>> 48) % 256, (n >>> 40) % 256, (n >>> 32) % 256,
   (n >>> 24) % 256, (n >>> 16) % 256, (n >>> 8) % 256, n % 256]

/-- Merkle–Damgård padding shared by SHA-256 and SHA-1: a `0x80` byte,
zeros to 56 mod 64, then the 64-bit big-endian bit length. -/
def padMessage (msg : List Nat) : List Nat :=
  let len := msg.length
  let zeros := (120 - ((len + 1) % 64)) % 64
  msg ++ [128] ++ List.replicate zeros 0 ++ lenBytes8 (len * 8)

/-- Fold the SHA-256 block function over all blocks. -/
def sha256Fold : List (List Nat) → List Nat → List Nat
  | [], H => H
  | b :: bs, H => sha256Fold bs (sha256Block H b)

/-- SHA-256 digest of a byte string, as 32 digest bytes. -/
def sha256Bytes (msg : List Nat) : List Nat :=
  let H := sha256Fold (chunks16 (bytesToWords (padMessage msg))) sha256H0
  H.flatMap fun w => [(w >>> 24) % 256, (w >>> 16) % 256, (w >>> 8) % 256, w % 256]

/-- The SHA-1 initial hash state. -/
def sha1H0 : List Nat :=
  [0x67452301, 0xEFCDAB89, 0x98BADCFE, 0x10325476,
   0xC3D2E1F0]

/-- Extend the 16 SHA-1 schedule words by `fuel` further words. -/
def sha1Extend : Nat → List Nat → List Nat
  | 0, ws => ws
  | fuel + 1, ws =>
      let t := ws.length
      let w := rotl32 1 (ws.getD (t - 3) 0 ^^^ ws.getD (t - 8) 0 ^^^
                         ws.getD (t - 14) 0 ^^^ ws.getD (t - 16) 0)
      sha1Extend fuel (ws ++ [w])

/-- The SHA-1 round function and constant for round `t`. -/
def sha1FK (t b c d : Nat) : Nat × Nat :=
  if t < 20 then ((b &&& c) ||| ((wnot b) &&& d), 0x5a827999)
  else if t < 40 then (b ^^^ c ^^^ d, 0x6ed9eba1)
  else if t < 60 then ((b &&& c) ||| (b &&& d) ||| (c &&& d), 0x8f1bbcdc)
  else (b ^^^ c ^^^ d, 0xca62c1d6)

/-- The SHA-1 compression rounds (indexed, as the round function depends
on the round number). -/
def sha1Rounds : Nat → List Nat → Nat × Nat × Nat × Nat × Nat → Nat × Nat × Nat × Nat × Nat
  | _, [], s => s
  | t, w :: rest, (a, b, c, d, e) =>
      let (f, k) := sha1FK t b c d
      let temp := (rotl32 5 a + f + e + k + w) % w32mod
      sha1Rounds (t + 1) rest (temp, a, rotl32 30 b, c, d)

/-- Process one 16-word block with SHA-1. -/
def sha1Block (H : List Nat) (block : List Nat) : List Nat :=
  let W := sha1Extend 64 block
  let h0 := H.getD 0 0
  let h1 := H.getD 1 0
  let h2 := H.getD 2 0
  let h3 := H.getD 3 0
  let h4 := H.getD 4 0
  let (a, b, c, d, e) := sha1Rounds 0 W (h0, h1, h2, h3, h4)
  [(h0 + a) % w32mod, (h1 + b) % w32mod, (h2 + c) % w32mod,
   (h3 + d) % w32mod, (h4 + e) % w32mod]

/-- Fold the SHA-1 block function over all blocks. -/
def sha1Fold : List (List Nat) → List Nat → List Nat
  | [], H => H
  | b :: bs, H => sha1Fold bs (sha1Block H b)

/-- SHA-1 digest of a byte string, as 20 digest bytes. -/
def sha1Bytes (msg : List Nat) : List Nat :=
  let H := sha1Fold (chunks16 (bytesToWords (padMessage msg))) sha1H0
  H.flatMap fun w => [(w >>> 24) % 256, (w >>> 16) % 256, (w >>> 8) % 256, w % 256]

/-- Lowercase hex digit. -/
def hexDigitChar (n : Nat) : Char :=
  if n < 10 then Char.ofNat (48 + n) else Char.ofNat (87 + n)

/-- A byte as two lowercase hex digits (`b.toString(16).padStart(2,'0')`). -/
def hexByte (b : Nat) : String := String.mk [hexDigitChar (b / 16), hexDigitChar (b % 16)]

/-- A byte string as lowercase hex. -/
def bytesToHex (bs : List Nat) : String := String.join (bs.map hexByte)

/-- UTF-8 encoding of one code point (`TextEncoder`). -/
def utf8EncodeChar (c : Char) : List Nat :=
  let n := c.toNat
  if n < 128 then [n]
  else if n < 2048 then [192 ||| (n >>> 6), 128 ||| (n &&& 63)]
  else if n < 65536 then
    [224 ||| (n >>> 12), 128 ||| ((n >>> 6) &&& 63), 128 ||| (n &&& 63)]
  else
    [240 ||| (n >>> 18), 128 ||| ((n >>> 12) &&& 63), 128 ||| ((n >>> 6) &&& 63), 128 ||| (n &&& 63)]

/-- UTF-8 encoding of a string (`new TextEncoder().encode(message)`). -/
def utf8Encode (s : String) : List Nat := s.data.flatMap utf8EncodeChar

/-- `sha256(message)` from `checksum.ts`: UTF-8 encode, digest, print the
digest bytes as lowercase hex. -/
def sha256 (message : String) : String := bytesToHex (sha256Bytes (utf8Encode message))

/-- `sha1(message)` from `checksum.ts`. -/
def sha1 (message : String) : String := bytesToHex (sha1Bytes (utf8Encode message))

example : sha256 "abc" = "ba7816bf8f01cfea414140de5dae2223b00361a396177a9cb410ff61f20015ad" := by decide

example : sha256 "" = "e3b0c44298fc1c149afbf4c8996fb92427ae41e4649b934ca495991b7852b855" := by decide

example : sha1 "abc" = "a9993e364706816aba3e25717850c26c9cd0d89d" := by decide

example : sha1 "" = "da39a3ee5e6b4b0d3255bfef95601890afd80709" := by decide

/-! ## Endpoint specification registry (`endpointSpecs.ts`) -/

/-- `HashAlgorithm = 'SHA256' | 'SHA1'`. -/
inductive HashAlgorithm where
  | SHA256
  | SHA1
  deriving Repr, DecidableEq

/-- `ChecksumField` — one entry of an endpoint's ordered checksum field
list (`fromRequest` / `fromEnv` are optional in the source and default
to absent, i.e. `false`). -/
structure ChecksumField where
  name : String
  required : Bool
  fromRequest : Bool := false
  fromEnv : Bool := false
  deriving Repr, DecidableEq

/-- `EndpointSpec` — one registry entry. -/
structure EndpointSpec where
  path : String
  method : String
  description : String
  checksumFields : List ChecksumField
  requiresChecksum : Bool
  requiresSessionToken : Bool
  category : String
  sandboxUrl : String
  deriving Repr, DecidableEq

def ENDPOINT_SPECS : List (String × EndpointSpec) := [
  ("getSessionToken",
   { path := "/getSessionToken.do", method := "POST",
     description := "Creates a session token for subsequent API calls",
     checksumFields := [
      ⟨"merchantId", true, true, false⟩,
      ⟨"merchantSiteId", true, true, false⟩,
      ⟨"clientRequestId", true, true, false⟩,
      ⟨"timeStamp", true, true, false⟩,
      ⟨"merchantSecretKey", true, false, true⟩],
     requiresChecksum := true, requiresSessionToken := false,
     category := "session",
     sandboxUrl := "https://ppp-test.safecharge.com/ppp/api/v1/getSessionToken.do" }),
  ("payment.do",
   { path := "/payment.do", method := "POST",
     description := "Process Auth or Sale transaction",
     checksumFields := [
      ⟨"merchantId", true, true, false⟩,
      ⟨"merchantSiteId", true, true, false⟩,
      ⟨"clientRequestId", true, true, false⟩,
      ⟨"amount", true, true, false⟩,
      ⟨"currency", true, true, false⟩,
      ⟨"timeStamp", true, true, false⟩,
      ⟨"merchantSecretKey", true, false, true⟩],
     requiresChecksum := true, requiresSessionToken := true,
     category := "payment",
     sandboxUrl := "https://ppp-test.safecharge.com/ppp/api/v1/payment.do" }),
  ("initPayment",
   { path := "/initPayment.do", method := "POST",
     description := "Initialize payment before 3DS/payment flow",
     checksumFields := [
      ⟨"merchantId", true, true, false⟩,
      ⟨"merchantSiteId", true, true, false⟩,
      ⟨"clientRequestId", true, true, false⟩,
      ⟨"amount", true, true, false⟩,
      ⟨"currency", true, true, false⟩,
      ⟨"timeStamp", true, true, false⟩,
      ⟨"merchantSecretKey", true, false, true⟩],
     requiresChecksum := true, requiresSessionToken := true,
     category := "payment",
     sandboxUrl := "https://ppp-test.safecharge.com/ppp/api/v1/initPayment.do" }),
  ("authorize3d",
   { path := "/authorize3d.do", method := "POST",
     description := "Initiate 3DS authentication (MPI-only first step)",
     checksumFields := [
      ⟨"merchantId", true, true, false⟩,
      ⟨"merchantSiteId", true, true, false⟩,
      ⟨"clientRequestId", true, true, false⟩,
      ⟨"amount", true, true, false⟩,
      ⟨"currency", true, true, false⟩,
      ⟨"timeStamp", true, true, false⟩,
      ⟨"merchantSecretKey", true, false, true⟩],
     requiresChecksum := true, requiresSessionToken := true,
     category := "3ds",
     sandboxUrl := "https://ppp-test.safecharge.com/ppp/api/v1/authorize3d.do" }),
  ("verify3d",
   { path := "/verify3d.do", method := "POST",
     description := "Complete 3DS verification and get MPI data (eci, cavv, dsTransID)",
     checksumFields := [],
     requiresChecksum := false, requiresSessionToken := true,
     category := "3ds",
     sandboxUrl := "https://ppp-test.safecharge.com/ppp/api/v1/verify3d.do" }),
  ("settleTransaction",
   { path := "/settleTransaction.do", method := "POST",
     description := "Settle (capture) a previously authorized transaction",
     checksumFields := [
      ⟨"merchantId", true, true, false⟩,
      ⟨"merchantSiteId", true, true, false⟩,
      ⟨"clientRequestId", false, true, false⟩,
      ⟨"clientUniqueId", true, true, false⟩,
      ⟨"amount", true, true, false⟩,
      ⟨"currency", true, true, false⟩,
      ⟨"relatedTransactionId", true, true, false⟩,
      ⟨"authCode", false, true, false⟩,
      ⟨"comment", false, true, false⟩,
      ⟨"urlDetails", false, true, false⟩,
      ⟨"timeStamp", true, true, false⟩,
      ⟨"merchantSecretKey", true, false, true⟩],
     requiresChecksum := true, requiresSessionToken := false,
     category := "operation",
     sandboxUrl := "https://ppp-test.safecharge.com/ppp/api/v1/settleTransaction.do" }),
  ("voidTransaction",
   { path := "/voidTransaction.do", method := "POST",
     description := "Void (cancel) a previously authorized transaction",
     checksumFields := [
      ⟨"merchantId", true, true, false⟩,
      ⟨"merchantSiteId", true, true, false⟩,
      ⟨"clientRequestId", false, true, false⟩,
      ⟨"clientUniqueId", true, true, false⟩,
      ⟨"amount", true, true, false⟩,
      ⟨"currency", true, true, false⟩,
      ⟨"relatedTransactionId", true, true, false⟩,
      ⟨"authCode", false, true, false⟩,
      ⟨"comment", false, true, false⟩,
      ⟨"urlDetails", false, true, false⟩,
      ⟨"timeStamp", true, true, false⟩,
      ⟨"merchantSecretKey", true, false, true⟩],
     requiresChecksum := true, requiresSessionToken := false,
     category := "operation",
     sandboxUrl := "https://ppp-test.safecharge.com/ppp/api/v1/voidTransaction.do" }),
  ("refundTransaction",
   { path := "/refundTransaction.do", method := "POST",
     description := "Refund a settled transaction (full or partial)",
     checksumFields := [
      ⟨"merchantId", true, true, false⟩,
      ⟨"merchantSiteId", true, true, false⟩,
      ⟨"clientRequestId", false, true, false⟩,
      ⟨"clientUniqueId", true, true, false⟩,
      ⟨"amount", true, true, false⟩,
      ⟨"currency", true, true, false⟩,
      ⟨"relatedTransactionId", true, true, false⟩,
      ⟨"authCode", false, true, false⟩,
      ⟨"comment", false, true, false⟩,
      ⟨"urlDetails", false, true, false⟩,
      ⟨"timeStamp", true, true, false⟩,
      ⟨"merchantSecretKey", true, false, true⟩],
     requiresChecksum := true, requiresSessionToken := false,
     category := "operation",
     sandboxUrl := "https://ppp-test.safecharge.com/ppp/api/v1/refundTransaction.do" }),
  ("createUser",
   { path := "/createUser.do", method := "POST",
     description := "Register a user and obtain userTokenId",
     checksumFields := [
      ⟨"merchantId", true, true, false⟩,
      ⟨"merchantSiteId", true, true, false⟩,
      ⟨"clientRequestId", true, true, false⟩,
      ⟨"userTokenId", true, true, false⟩,
      ⟨"email", true, true, false⟩,
      ⟨"countryCode", true, true, false⟩,
      ⟨"firstName", true, true, false⟩,
      ⟨"lastName", true, true, false⟩,
      ⟨"timeStamp", true, true, false⟩,
      ⟨"merchantSecretKey", true, false, true⟩],
     requiresChecksum := true, requiresSessionToken := false,
     category := "user",
     sandboxUrl := "https://ppp-test.safecharge.com/ppp/api/v1/createUser.do" }),
  ("getUserUPOs",
   { path := "/getUserUPOs.do", method := "POST",
     description := "Retrieve user payment options",
     checksumFields := [
      ⟨"merchantId", true, true, false⟩,
      ⟨"merchantSiteId", true, true, false⟩,
      ⟨"clientRequestId", true, true, false⟩,
      ⟨"userTokenId", true, true, false⟩,
      ⟨"timeStamp", true, true, false⟩,
      ⟨"merchantSecretKey", true, false, true⟩],
     requiresChecksum := true, requiresSessionToken := false,
     category := "user",
     sandboxUrl := "https://ppp-test.safecharge.com/ppp/api/v1/getUserUPOs.do" }),
  ("addUPOCreditCard",
   { path := "/addUPOCreditCard.do", method := "POST",
     description := "Add credit card as user payment option",
     checksumFields := [
      ⟨"merchantId", true, true, false⟩,
      ⟨"merchantSiteId", true, true, false⟩,
      ⟨"clientRequestId", true, true, false⟩,
      ⟨"userTokenId", true, true, false⟩,
      ⟨"timeStamp", true, true, false⟩,
      ⟨"merchantSecretKey", true, false, true⟩],
     requiresChecksum := true, requiresSessionToken := true,
     category := "user",
     sandboxUrl := "https://ppp-test.safecharge.com/ppp/api/v1/addUPOCreditCard.do" }),
  ("deleteUPO",
   { path := "/deleteUPO.do", method := "POST",
     description := "Delete a user payment option",
     checksumFields := [
      ⟨"merchantId", true, true, false⟩,
      ⟨"merchantSiteId", true, true, false⟩,
      ⟨"clientRequestId", true, true, false⟩,
      ⟨"userPaymentOptionId", true, true, false⟩,
      ⟨"userTokenId", true, true, false⟩,
      ⟨"timeStamp", true, true, false⟩,
      ⟨"merchantSecretKey", true, false, true⟩],
     requiresChecksum := true, requiresSessionToken := false,
     category := "user",
     sandboxUrl := "https://ppp-test.safecharge.com/ppp/api/v1/deleteUPO.do" }),
  ("payout.do",
   { path := "/payout.do", method := "POST",
     description := "Initiate payout to card or APM",
     checksumFields := [
      ⟨"merchantId", true, true, false⟩,
      ⟨"merchantSiteId", true, true, false⟩,
      ⟨"clientRequestId", true, true, false⟩,
      ⟨"userTokenId", true, true, false⟩,
      ⟨"amount", true, true, false⟩,
      ⟨"currency", true, true, false⟩,
      ⟨"paymentMethodName", false, true, false⟩,
      ⟨"timeStamp", true, true, false⟩,
      ⟨"merchantSecretKey", true, false, true⟩],
     requiresChecksum := true, requiresSessionToken := true,
     category := "payout",
     sandboxUrl := "https://ppp-test.safecharge.com/ppp/api/v1/payout.do" }),
  ("getPayoutStatus",
   { path := "/getPayoutStatus.do", method := "POST",
     description := "Check status of a payout",
     checksumFields := [
      ⟨"merchantId", true, true, false⟩,
      ⟨"merchantSiteId", true, true, false⟩,
      ⟨"clientRequestId", true, true, false⟩,
      ⟨"userTokenId", true, true, false⟩,
      ⟨"timeStamp", true, true, false⟩,
      ⟨"merchantSecretKey", true, false, true⟩],
     requiresChecksum := true, requiresSessionToken := false,
     category := "payout",
     sandboxUrl := "https://ppp-test.safecharge.com/ppp/api/v1/getPayoutStatus.do" }),
  ("getPaymentStatus",
   { path := "/getPaymentStatus.do", method := "POST",
     description := "Get payment status by sessionToken",
     checksumFields := [],
     requiresChecksum := false, requiresSessionToken := true,
     category := "lookup",
     sandboxUrl := "https://ppp-test.safecharge.com/ppp/api/v1/getPaymentStatus.do" }),
  ("getTransactionDetails",
   { path := "/getTransactionDetails.do", method := "POST",
     description := "Get transaction details by transactionId",
     checksumFields := [
      ⟨"merchantId", true, true, false⟩,
      ⟨"merchantSiteId", true, true, false⟩,
      ⟨"clientRequestId", true, true, false⟩,
      ⟨"transactionId", false, true, false⟩,
      ⟨"clientUniqueId", false, true, false⟩,
      ⟨"timeStamp", true, true, false⟩,
      ⟨"merchantSecretKey", true, false, true⟩],
     requiresChecksum := true, requiresSessionToken := false,
     category := "lookup",
     sandboxUrl := "https://ppp-test.safecharge.com/ppp/api/v1/getTransactionDetails.do" }),
  ("getCardDetails",
   { path := "/getCardDetails.do", method := "POST",
     description := "Get card BIN details (brand, type, issuing country)",
     checksumFields := [
      ⟨"merchantId", true, true, false⟩,
      ⟨"merchantSiteId", true, true, false⟩,
      ⟨"sessionToken", true, true, false⟩,
      ⟨"clientRequestId", true, true, false⟩,
      ⟨"cardNumber", true, true, false⟩,
      ⟨"timeStamp", true, true, false⟩,
      ⟨"merchantSecretKey", true, false, true⟩],
     requiresChecksum := true, requiresSessionToken := true,
     category := "lookup",
     sandboxUrl := "https://ppp-test.safecharge.com/ppp/api/v1/getCardDetails.do" }),
  ("getMerchantPaymentMethods",
   { path := "/getMerchantPaymentMethods.do", method := "POST",
     description := "Get available payment methods for merchant",
     checksumFields := [
      ⟨"merchantId", true, true, false⟩,
      ⟨"merchantSiteId", true, true, false⟩,
      ⟨"clientRequestId", true, true, false⟩,
      ⟨"timeStamp", true, true, false⟩,
      ⟨"merchantSecretKey", true, false, true⟩],
     requiresChecksum := true, requiresSessionToken := true,
     category := "apm",
     sandboxUrl := "https://ppp-test.safecharge.com/ppp/api/v1/getMerchantPaymentMethods.do" }),
  ("getMcpRates",
   { path := "/getMcpRates.do", method := "POST",
     description := "Get multi-currency pricing rates",
     checksumFields := [
      ⟨"merchantId", true, true, false⟩,
      ⟨"merchantSiteId", true, true, false⟩,
      ⟨"clientRequestId", true, true, false⟩,
      ⟨"timeStamp", true, true, false⟩,
      ⟨"merchantSecretKey", true, false, true⟩],
     requiresChecksum := true, requiresSessionToken := true,
     category := "apm",
     sandboxUrl := "https://ppp-test.safecharge.com/ppp/api/v1/getMcpRates.do" })
]

/-- Key lookup in the registry (`ENDPOINT_SPECS[nameOrPath]`; keys are
unique, and JS preserves insertion order for these non-numeric keys). -/
def lookupSpecKey : List (String × EndpointSpec) → String → Option EndpointSpec
  | [], _ => none
  | (k, spec) :: rest, key => if k == key then some spec else lookupSpecKey rest key

/-- `String.prototype.endsWith`, over the character list. -/
def strEndsWith (s suffix : String) : Bool := suffix.data.isSuffixOf s.data

/-- `String.prototype.startsWith`, over the character list. -/
def strStartsWith (s pre : String) : Bool := pre.data.isPrefixOf s.data

/-- `getEndpointSpec(nameOrPath)`: direct key lookup first, then a scan
of the registry for a spec whose `path` equals the input normalized with
a `.do` suffix and a leading `/`. -/
def getEndpointSpec (nameOrPath : String) : Option EndpointSpec :=
  match lookupSpecKey ENDPOINT_SPECS nameOrPath with
  | some spec => some spec
  | none =>
      let pathWithDo := if strEndsWith nameOrPath ".do" then nameOrPath else nameOrPath ++ ".do"
      let pathFormatted :=
        if strStartsWith pathWithDo "/" then pathWithDo else "/" ++ pathWithDo
      (ENDPOINT_SPECS.find? fun p => p.2.path == pathFormatted).map (·.2)

/-- JS `s.slice(0, n)`, over the character list. -/
def jsSlice0 (s : String) (n : Nat) : String := String.mk (s.data.take n)

/-- JS `s.slice(-n)` (the last `n` characters; the whole string when it
is shorter), over the character list. -/
def jsSliceNeg (s : String) (n : Nat) : String :=
  String.mk (s.data.drop (s.data.length - n))

/-- `maskPAN(cardNumber)` (identical in `checksum.ts` and
`endpointSpecs.ts`): short or empty inputs collapse to `"****"`; longer
inputs keep the first 6 and last 4 characters and star the middle. -/
def maskPAN (cardNumber : String) : String :=
  if cardNumber == "" || cardNumber.length < 13 then "****"
  else
    let first6 := jsSlice0 cardNumber 6
    let last4 := jsSliceNeg cardNumber 4
    let masked := String.mk (List.replicate (cardNumber.length - 10) (Char.ofNat 42))
    first6 ++ masked ++ last4

/-! ## Checksum engine (`checksum.ts`) -/

/-- `calculateChecksum(values, algorithm)`: drop empty entries (the
`undefined`/`null` cases of the filter cannot arise for the `string[]`
argument type), concatenate the rest in order with no separator, and
digest with the selected algorithm. -/
def calculateChecksum (values : List String) (algorithm : HashAlgorithm) : String :=
  let cleanValues := values.filter fun v => v != ""
  let concatenated := String.join cleanValues
  match algorithm with
  | .SHA256 => sha256 concatenated
  | .SHA1 => sha1 concatenated

/-- `ChecksumRequestData` — the flat field-name → string mapping; an
absent key models both a missing key and an `undefined` value. -/
def RequestData : Type := List (String × String)

/-- Field lookup `requestData[name]`. -/
def rdGet : RequestData → String → Option String
  | [], _ => none
  | (k, v) :: rest, key => if k == key then some v else rdGet rest key

/-- The two failure conditions `calculateChecksumForEndpoint` throws
(`Unknown endpoint: …` / `… does not require checksum`), modelled as an
error type. -/
inductive ChecksumError where
  | UnknownEndpoint (endpointName : String)
  | ChecksumNotApplicable (endpointName : String)
  deriving Repr, DecidableEq

deriving instance DecidableEq for Except

/-- The per-field body of the `for (const field of spec.checksumFields)`
loop: a `fromEnv` field named `merchantSecretKey` resolves to the caller
secret, a `fromRequest` field resolves from the request data, a required
field that is unresolved (or resolved to the empty string) becomes the
empty string, and anything still `undefined` is skipped by the caller. -/
def resolveChecksumFieldValue (field : ChecksumField) (requestData : RequestData)
    (merchantSecretKey : String) : Option String :=
  let value : Option String :=
    if field.fromEnv && field.name == "merchantSecretKey" then some merchantSecretKey
    else if field.fromRequest then rdGet requestData field.name
    else none
  if field.required = true ∧ (value = none ∨ value = some "") then some "" else value

/-- `calculateChecksumForEndpoint(endpointName, requestData,
merchantSecretKey, algorithm)`: look the spec up, reject unknown
endpoints and endpoints without a checksum, then hash the values
resolved from `checksumFields` in spec order. -/
def calculateChecksumForEndpoint (endpointName : String) (requestData : RequestData)
    (merchantSecretKey : String) (algorithm : HashAlgorithm) :
    Except ChecksumError String :=
  match getEndpointSpec endpointName with
  | none => .error (.UnknownEndpoint endpointName)
  | some spec =>
      if !spec.requiresChecksum then .error (.ChecksumNotApplicable endpointName)
      else
        .ok (calculateChecksum
          (spec.checksumFields.filterMap fun field =>
            resolveChecksumFieldValue field requestData merchantSecretKey)
          algorithm)

/-- `verifyChecksum(endpointName, requestData, providedChecksum,
merchantSecretKey, algorithm)`: recompute and compare case-insensitively;
any internal failure is caught and yields `false`. -/
def verifyChecksum (endpointName : String) (requestData : RequestData)
    (providedChecksum : String) (merchantSecretKey : String)
    (algorithm : HashAlgorithm) : Bool :=
  match calculateChecksumForEndpoint endpointName requestData merchantSecretKey algorithm with
  | .ok calculated => jsToLowerCase calculated == jsToLowerCase providedChecksum
  | .error _ => false

/-! ## Scenario execution engine (the `executeStep` / `executeScenario`
module and `types.ts`)

Wall-clock and random values (`generateTimestamp`,
`generateClientRequestId`, `Date.now`) and the HTTP round-trip are
supplied by an explicit per-step oracle.  The display-only wall-clock
fields of a step result (`request.timestamp`, `response.duration`) are
outside the embedding. -/

/-- `EnvConfig` from `types.ts`.  `checksumAlgorithm` is declared
required there, but `executeStep` defends against its absence with
`|| 'SHA256'`, so the embedding makes it optional. -/
structure EnvConfig where
  merchantId : String
  merchantSiteId : String
  merchantKey : String
  baseUrl : String
  checksumAlgorithm : Option HashAlgorithm
  deriving Repr, DecidableEq

/-- Dynamic field access `envAny[field]` used by template resolution. -/
def EnvConfig.lookupField (env : EnvConfig) (field : String) : Option Json :=
  if field == "merchantId" then some (.jstr env.merchantId)
  else if field == "merchantSiteId" then some (.jstr env.merchantSiteId)
  else if field == "merchantKey" then some (.jstr env.merchantKey)
  else if field == "baseUrl" then some (.jstr env.baseUrl)
  else if field == "checksumAlgorithm" then
    match env.checksumAlgorithm with
    | some .SHA256 => some (.jstr "SHA256")
    | some .SHA1 => some (.jstr "SHA1")
    | none => none
  else none

/-- The env credentials as a JS object (for `context['env']` access). -/
def EnvConfig.toJson (env : EnvConfig) : Json :=
  Json.objOf ([("merchantId", .jstr env.merchantId),
               ("merchantSiteId", .jstr env.merchantSiteId),
               ("merchantKey", .jstr env.merchantKey),
               ("baseUrl", .jstr env.baseUrl)] ++
    (match env.checksumAlgorithm with
     | some .SHA256 => [("checksumAlgorithm", Json.jstr "SHA256")]
     | some .SHA1 => [("checksumAlgorithm", Json.jstr "SHA1")]
     | none => []))

/-- `RunContext`: the `env` credentials plus the dynamic keys written by
steps (`sessionToken`, transaction ids, `timestamp`, …), kept as an
ordered association list.  (A step extraction rule targeting the
reserved key `"env"` would clobber the credentials in JS; no scenario
does that and the embedding keeps `env` separate.) -/
structure RunContext where
  env : EnvConfig
  vars : List (String × Json)
  deriving Repr, DecidableEq

/-- Upsert into the dynamic key list (JS property assignment). -/
def varsSet : List (String × Json) → String → Json → List (String × Json)
  | [], key, val => [(key, val)]
  | (k, v) :: rest, key, val =>
      if k == key then (k, val) :: rest else (k, v) :: varsSet rest key val

/-- Lookup in the dynamic key list. -/
def varsGet : List (String × Json) → String → Option Json
  | [], _ => none
  | (k, v) :: rest, key => if k == key then some v else varsGet rest key

/-- Dynamic field access `context[field]` used by `{{ctx.*}}` template
resolution. -/
def RunContext.getField (c : RunContext) (field : String) : Option Json :=
  if field == "env" then some c.env.toJson else varsGet c.vars field

/-- `ScenarioStep` from `types.ts`; `contextWrites` maps a response path
to a context key, in declaration order. -/
structure ScenarioStep where
  id : String
  name : String
  description : String
  endpoint : String
  method : String
  checksumFields : List String
  requestTemplate : JsonFields
  contextReads : List String
  contextWrites : List (String × String)
  is3DSChallenge : Option Bool
  deriving Repr, DecidableEq

/-- `Scenario` from `types.ts` (named `ScenarioDef` here). -/
structure ScenarioDef where
  id : String
  name : String
  description : String
  tags : List String
  steps : List ScenarioStep
  deriving Repr, DecidableEq

/-- A step result's outcome status. -/
inductive StepStatus where
  | success
  | error
  | redirect
  deriving Repr, DecidableEq

/-- The challenge payload attached to a redirect step result. -/
structure ThreeDSChallenge where
  acsUrl : String
  cReq : String
  deriving Repr, DecidableEq

/-- `StepResult` from `types.ts` (the wall-clock `request.timestamp` and
`response.duration` display fields are outside the embedding). -/
structure StepResult where
  stepId : String
  stepName : String
  status : StepStatus
  requestUrl : String
  requestMethod : String
  requestBody : JsonFields
  responseStatus : Nat
  responseBody : JsonFields
  threeDSChallenge : Option ThreeDSChallenge
  deriving Repr, DecidableEq

/-- The outcome of the step's `fetch` + `response.json()`: either a
thrown transport/parse error (already `String(error)`-converted), or a
status code with the parsed JSON body (a `Record<string, unknown>` per
the source's typed contract). -/
inductive HttpResult where
  | failure (message : String)
  | ok (status : Nat) (body : JsonFields)
  deriving Repr, DecidableEq

/-- The oracle for one `executeStep` call: the step-entry timestamp and
client-request id, the (independently generated) values a
`{{meta.*}}` substitution would draw, and the HTTP outcome. -/
structure StepOracle where
  timestamp : String
  clientRequestId : String
  metaTimestamp : String
  metaClientRequestId : String
  http : HttpResult
  deriving Repr, DecidableEq

/-! ### Template placeholder resolution

`resolveTemplate` substitutes `\x7b\x7bnamespace.field\x7d\x7d` tokens
(regex `\w+\.\w+` between double braces) in string leaves, recursing
into object values; the regex scan is reproduced by a deterministic
left-to-right scanner (the regex is backtracking-free: `\w` cannot match
`.` or a brace). -/

/-- JS `\w`: ASCII letters, digits, underscore. -/
def isWordChar (c : Char) : Bool := c.isAlphanum || c == '_'

/-- The opening curly brace character. -/
def lbrace : Char := Char.ofNat 123

/-- The closing curly brace character. -/
def rbrace : Char := Char.ofNat 125

/-- Longest prefix of word characters, and the rest. -/
def takeWordChars : List Char → List Char × List Char
  | [] => ([], [])
  | c :: cs =>
      if isWordChar c then
        let (w, r) := takeWordChars cs
        (c :: w, r)
      else ([], c :: cs)

/-- Parse `\w+ '.' \w+` followed by the two closing braces, returning
the namespace, the field and the remaining input. -/
def parsePlaceholder (cs : List Char) : Option (String × String × List Char) :=
  let (ns, r1) := takeWordChars cs
  if ns.isEmpty then none
  else
    match r1 with
    | '.' :: r2 =>
        let (field, r3) := takeWordChars r2
        if field.isEmpty then none
        else
          match r3 with
          | c1 :: c2 :: r4 =>
              if c1 == rbrace && c2 == rbrace then some (String.mk ns, String.mk field, r4)
              else none
          | _ => none
    | _ => none

/-- Left-to-right scan: at each position try to match a placeholder
(which must start with two opening braces); on a match, emit the
replacement and continue after it; otherwise emit the character.  The
fuel is an upper bound on the number of scan positions. -/
def substPlaceholdersGo (repl : String → String → String) : Nat → List Char → List Char
  | 0, cs => cs
  | _ + 1, [] => []
  | fuel + 1, c :: cs =>
      if c == lbrace then
        match cs with
        | c2 :: rest =>
            if c2 == lbrace then
              match parsePlaceholder rest with
              | some (ns, field, rest') =>
                  (repl ns field).data ++ substPlaceholdersGo repl fuel rest'
              | none => c :: substPlaceholdersGo repl fuel cs
            else c :: substPlaceholdersGo repl fuel cs
        | [] => [c]
      else c :: substPlaceholdersGo repl fuel cs

/-- Apply the placeholder substitution to a whole string. -/
def substPlaceholders (repl : String → String → String) (s : String) : String :=
  String.mk (substPlaceholdersGo repl s.length s.data)

/-- The JS `String(x || '')` idiom: empty for falsy, else `String(x)`. -/
def jsStringOrEmpty (v : Option Json) : String :=
  if jsTruthy v then jsToString (v.getD .jnull) else ""

/-- The replacement callback: `env.*` from the credentials, `ctx.*` from
the context, `meta.timestamp` / `meta.clientRequestId` from freshly
generated values; anything else substitutes to the empty string. -/
def placeholderValue (c : RunContext) (metaTs metaCrid : String) (ns field : String) : String :=
  if ns == "env" then jsStringOrEmpty (c.env.lookupField field)
  else if ns == "ctx" then jsStringOrEmpty (c.getField field)
  else if ns == "meta" then
    if field == "timestamp" then metaTs
    else if field == "clientRequestId" then metaCrid
    else ""
  else ""

mutual
/-- One template value: strings get placeholder substitution, non-null
objects recurse (an array value recurses as the object of its indices,
exactly as `Object.entries` over an array behaves in the source), and
everything else passes through. -/
def resolveTemplateValue (c : RunContext) (metaTs metaCrid : String) : Json → Json
  | .jstr s => .jstr (substPlaceholders (placeholderValue c metaTs metaCrid) s)
  | .jobj fs => .jobj (resolveTemplateFields c metaTs metaCrid fs)
  | .jarr xs => .jobj (resolveTemplateArr c metaTs metaCrid 0 xs)
  | v => v
/-- Resolve each field of a template object, in order. -/
def resolveTemplateFields (c : RunContext) (metaTs metaCrid : String) : JsonFields → JsonFields
  | .nil => .nil
  | .cons k v t =>
      .cons k (resolveTemplateValue c metaTs metaCrid v) (resolveTemplateFields c metaTs metaCrid t)
/-- Resolve array elements as indexed object fields. -/
def resolveTemplateArr (c : RunContext) (metaTs metaCrid : String) (start : Nat) :
    JsonList → JsonFields
  | .nil => .nil
  | .cons v t =>
      .cons (toString start) (resolveTemplateValue c metaTs metaCrid v)
        (resolveTemplateArr c metaTs metaCrid (start + 1) t)
end

/-- `resolveTemplate(template, context)`. -/
def resolveTemplate (template : JsonFields) (c : RunContext) (metaTs metaCrid : String) :
    JsonFields :=
  resolveTemplateFields c metaTs metaCrid template

/-- Split a character list on a separator character (JS
`String.prototype.split` with a one-character separator). -/
def splitOnCharGo (sep : Char) : List Char → List Char → List (List Char)
  | [], acc => [acc.reverse]
  | c :: cs, acc =>
      if c = sep then acc.reverse :: splitOnCharGo sep cs []
      else splitOnCharGo sep cs (c :: acc)

/-- JS `s.split(sep)` for a one-character separator. -/
def jsSplitChar (sep : Char) (s : String) : List String :=
  (splitOnCharGo sep s.data []).map String.mk

/-- `extractFromResponse(response, path)`: split the path on dots and
reduce, stepping only through values that are truthy objects. -/
def extractFromResponse (response : Json) (path : String) : Option Json :=
  (jsSplitChar '.' path).foldl
    (fun acc key =>
      match acc with
      | some v => jsMember v key
      | none => none)
    (some response)

/-- `maskSensitiveData` helper: mask the card fields of a (spread copy
of a) card object — `cardNumber` becomes `****` plus the last 4
characters of its string form, `CVV` becomes `***`. -/
def maskCardFields (card : JsonFields) : JsonFields :=
  let card1 :=
    if jsTruthy (card.get "cardNumber") then
      card.set "cardNumber"
        (.jstr ("****" ++ jsSliceNeg (jsToString ((card.get "cardNumber").getD .jnull)) 4))
    else card
  if jsTruthy (card1.get "CVV") then card1.set "CVV" (.jstr "***") else card1

/-- Spread `{...v}` of a value the source has guarded with
`v && typeof v === 'object'`: an object keeps its fields, an array
becomes the object of its indices. -/
def jsObjSpread : Json → Option JsonFields
  | .jobj fs => some fs
  | .jarr xs => some (xs.toIndexedFields 0)
  | _ => none

/-- `maskSensitiveData(data)` from the scenario engine: a truthy
`checksum` field is replaced by `"***masked***"`, and a
`paymentOption.card` object has its `cardNumber` / `CVV` masked. -/
def maskSensitiveData (data : JsonFields) : JsonFields :=
  let masked :=
    if jsTruthy (data.get "checksum") then data.set "checksum" (.jstr "***masked***") else data
  match masked.get "paymentOption" with
  | none => masked
  | some po =>
      match (if jsTruthy (some po) then jsObjSpread po else none) with
      | none => masked
      | some poFields =>
          let poFinal :=
            match (match poFields.get "card" with
                   | some c => if jsTruthy (some c) then jsObjSpread c else none
                   | none => none) with
            | none => poFields
            | some cardFields => poFields.set "card" (.jobj (maskCardFields cardFields))
          masked.set "paymentOption" (.jobj poFinal)

/-- `executeStep(step, context)` with the oracle supplying generated
values and the HTTP outcome.  Returns the step result and the updated
context. -/
def executeStep (step : ScenarioStep) (context : RunContext) (o : StepOracle) :
    StepResult × RunContext :=
  let contextWithMeta : RunContext :=
    { context with
      vars := varsSet (varsSet context.vars "timestamp" (.jstr o.timestamp))
        "clientRequestId" (.jstr o.clientRequestId) }
  let requestBody0 :=
    resolveTemplate step.requestTemplate contextWithMeta o.metaTimestamp o.metaClientRequestId
  let requestBody1 :=
    if requestBody0.hasKey "timeStamp" || jsTruthy (step.requestTemplate.get "timeStamp") then
      requestBody0.set "timeStamp" (.jstr o.timestamp)
    else requestBody0
  let requestBody2 :=
    if requestBody1.hasKey "clientRequestId" ||
        jsTruthy (step.requestTemplate.get "clientRequestId") then
      requestBody1.set "clientRequestId" (.jstr o.clientRequestId)
    else requestBody1
  let requestBody :=
    if step.checksumFields.length > 0 then
      let checksumValues := step.checksumFields.map fun field =>
        if field == "merchantKey" then context.env.merchantKey
        else jsStringOrEmpty (requestBody2.get field)
      let checksum := calculateChecksum checksumValues (context.env.checksumAlgorithm.getD .SHA256)
      requestBody2.set "checksum" (.jstr checksum)
    else requestBody2
  let url := context.env.baseUrl ++ step.endpoint
  match o.http with
  | .failure message =>
      (⟨step.id, step.name, .error, url, step.method, maskSensitiveData requestBody,
        0, JsonFields.ofList [("error", .jstr message)], none⟩, context)
  | .ok status responseBody =>
      let updatedContext := step.contextWrites.foldl
        (fun ctx pw =>
          match extractFromResponse (.jobj responseBody) pw.1 with
          | some value => { ctx with vars := varsSet ctx.vars pw.2 value }
          | none => ctx)
        context
      let acsUrl := extractFromResponse (.jobj responseBody) "paymentOption.card.threeD.acsUrl"
      let cReq := extractFromResponse (.jobj responseBody) "paymentOption.card.threeD.cReq"
      let errCond :=
        jsStrictEqStr (responseBody.get "status") "ERROR" || jsTruthy (responseBody.get "errCode")
      let redirCond :=
        jsStrictEqStr (responseBody.get "transactionStatus") "REDIRECT" &&
          jsTruthy acsUrl && jsTruthy cReq
      -- the source mutates `status` / `threeDSChallenge` / `updatedContext` in
      -- its two branches and builds a single result record at its only
      -- `return`; the mutated triple is computed here first accordingly
      let outcome : StepStatus × Option ThreeDSChallenge × RunContext :=
        if errCond then (.error, none, updatedContext)
        else if redirCond then
          let aStr := jsToString (acsUrl.getD .jnull)
          let cStr := jsToString (cReq.getD .jnull)
          (.redirect, some ⟨aStr, cStr⟩,
            { updatedContext with
              vars := varsSet (varsSet updatedContext.vars "acsUrl" (.jstr aStr))
                "cReq" (.jstr cStr) })
        else (.success, none, updatedContext)
      (⟨step.id, step.name, outcome.1, url, step.method, maskSensitiveData requestBody,
        status, responseBody, outcome.2.1⟩, outcome.2.2)

/-- The terminal status of a scenario run. -/
inductive FlowStatus where
  | completed
  | failed
  | challenge_required
  deriving Repr, DecidableEq

/-- `ScenarioRunResult` (the wall-clock `startTime` / `endTime` fields
are outside the embedding; `context` is the masked final context, i.e.
the dynamic keys with the credentials removed). -/
structure ScenarioRunResult where
  scenarioId : String
  scenarioName : String
  status : FlowStatus
  steps : List StepResult
  context : List (String × Json)
  deriving Repr, DecidableEq

/-- The `for (const step of scenario.steps)` loop of `executeScenario`:
run steps in order, stopping after the first `error` (final status
`failed`) or the first `redirect` carrying a challenge (final status
`challenge_required`); otherwise run them all (`completed`). -/
def runScenarioSteps (oracle : Nat → StepOracle) :
    List ScenarioStep → RunContext → Nat → List StepResult × RunContext × FlowStatus
  | [], context, _ => ([], context, .completed)
  | step :: rest, context, i =>
      let (result, updatedContext) := executeStep step context (oracle i)
      if result.status = .error then ([result], updatedContext, .failed)
      else if result.status = .redirect ∧ result.threeDSChallenge.isSome then
        ([result], updatedContext, .challenge_required)
      else
        let (results, finalContext, finalStatus) :=
          runScenarioSteps oracle rest updatedContext (i + 1)
        (result :: results, finalContext, finalStatus)

/-- `maskContextSensitiveData(context)`: strip `env` (the merchant key)
from the returned context snapshot, keeping the dynamic keys. -/
def maskContextSensitiveData (context : RunContext) : List (String × Json) :=
  context.vars

/-- `executeScenario(scenario, env, initialContext)` (suffixed `Fn`
here), with a per-step-index oracle for generated values and HTTP
outcomes. -/
def executeScenarioFn (sc : ScenarioDef) (env : EnvConfig)
    (initialVars : List (String × Json)) (oracle : Nat → StepOracle) : ScenarioRunResult :=
  let context : RunContext := { env := env, vars := initialVars }
  let (steps, finalContext, finalStatus) := runScenarioSteps oracle sc.steps context 0
  { scenarioId := sc.id, scenarioName := sc.name, status := finalStatus,
    steps := steps, context := maskContextSensitiveData finalContext }

/-! ## Worker backend (webhook store, DMN classification, 3DS
orchestrator)

These definitions embed the relevant fragments of the Cloudflare-worker
module: the bounded in-memory webhook store shared by `handleWebhook`
and `storeInternalDmn` (both run the identical `unshift` + conditional
`pop` sequence), the DMN classification switch of `handleWebhook`, and
the parts of `handle3DSPayment` that the claims are about — the retained
request-body logs of its getSessionToken / initPayment / payment steps
and the payment step's outcome classification. -/

/-- One record of the in-memory `webhookStore` list. -/
structure WebhookRecord where
  id : String
  timestamp : String
  payload : JsonFields
  deriving Repr, DecidableEq

/-- The store update run by both `handleWebhook` and `storeInternalDmn`:
`webhookStore.unshift(record)` followed by
`if (webhookStore.length > 100) webhookStore.pop()`. -/
def webhookStoreInsert (record : WebhookRecord) (webhookStore : List WebhookRecord) :
    List WebhookRecord :=
  let afterUnshift := record :: webhookStore
  if afterUnshift.length > 100 then afterUnshift.dropLast else afterUnshift

/-- The `_dmnType` classification switch of `handleWebhook`, applied to
the normalized payload (JS truthiness tests, first match wins). -/
def classifyDmnType (payload : JsonFields) : String :=
  if jsTruthy (payload.get "cres") then
    if jsTruthy (payload.get "errorMessage") then "3DS Error" else "3DS Challenge Response"
  else if jsTruthy (payload.get "ppp_status") || jsTruthy (payload.get "Status") then
    "Payment DMN"
  else if jsTruthy (payload.get "transactionId") || jsTruthy (payload.get "TransactionID") then
    "Transaction DMN"
  else "Unknown DMN"

/-- The worker's `EnvConfig` (no `checksumAlgorithm` field there). -/
structure Env3DS where
  merchantId : String
  merchantSiteId : String
  merchantKey : String
  baseUrl : String
  deriving Repr, DecidableEq

/-- The card block of a `PaymentRequest`. -/
structure CardInput where
  number : String
  holderName : String
  expMonth : String
  expYear : String
  cvv : String
  deriving Repr, DecidableEq

/-- One entry of `handle3DSPayment`'s `steps` array (its anonymous
record type; the wall-clock `request.timestamp` / `response.duration`
fields are outside the embedding). -/
structure Step3DS where
  stepId : String
  stepName : String
  status : String
  requestUrl : String
  requestMethod : String
  requestBody : JsonFields
  responseStatus : Nat
  responseBody : JsonFields
  deriving Repr, DecidableEq

/-- `checksum1`: the getSessionToken checksum of `handle3DSPayment`
(`[merchantId, merchantSiteId, clientRequestId1, timestamp1,
merchantKey]`, SHA-256). -/
def sessionTokenChecksum (env : Env3DS) (clientRequestId1 timestamp1 : String) : String :=
  calculateChecksum
    [env.merchantId, env.merchantSiteId, clientRequestId1, timestamp1, env.merchantKey] .SHA256

/-- `sessionBody` of `handle3DSPayment`, the request body of its
getSessionToken step. -/
def sessionBody (env : Env3DS) (clientRequestId1 timestamp1 : String) : JsonFields :=
  JsonFields.ofList
    [("merchantId", .jstr env.merchantId),
     ("merchantSiteId", .jstr env.merchantSiteId),
     ("clientRequestId", .jstr clientRequestId1),
     ("timeStamp", .jstr timestamp1),
     ("checksum", .jstr (sessionTokenChecksum env clientRequestId1 timestamp1))]

/-- The getSessionToken step record `handle3DSPayment` pushes: note the
request body is `sessionBody` itself, retained without any masking. -/
def sessionStepRec (env : Env3DS) (clientRequestId1 timestamp1 : String)
    (sessionHttpStatus : Nat) (sessionData : JsonFields) : Step3DS :=
  { stepId := "getSessionToken", stepName := "Get Session Token",
    status := if jsStrictEqStr (sessionData.get "status") "SUCCESS" then "success" else "error",
    requestUrl := env.baseUrl ++ "/ppp/api/getSessionToken.do", requestMethod := "POST",
    requestBody := sessionBody env clientRequestId1 timestamp1,
    responseStatus := sessionHttpStatus, responseBody := sessionData }

/-- The card object inside `paymentOption` — identical literal shape in
the initPayment and payment bodies of `handle3DSPayment` (the `threeD`
subobject differs and is passed in). -/
def cardOptionFields (card : CardInput) (threeD : Json) : JsonFields :=
  JsonFields.ofList
    [("cardNumber", .jstr card.number),
     ("cardHolderName", .jstr card.holderName),
     ("expirationMonth", .jstr card.expMonth),
     ("expirationYear", .jstr card.expYear),
     ("CVV", .jstr card.cvv),
     ("threeD", threeD)]

/-- `initThreeD` of `handle3DSPayment`: `platformType`, plus
`methodNotificationUrl` unless the feature-test mode turned it off. -/
def initThreeD (platformType methodNotificationUrlMode methodNotificationUrl : String) :
    JsonFields :=
  if methodNotificationUrlMode != "off" then
    JsonFields.ofList
      [("platformType", .jstr platformType),
       ("methodNotificationUrl", .jstr methodNotificationUrl)]
  else JsonFields.ofList [("platformType", .jstr platformType)]

/-- `initPaymentBody` of `handle3DSPayment`. -/
def initPaymentBody (env : Env3DS)
    (sessionToken clientRequestId2 currency amount userTokenId : String)
    (card : CardInput) (threeD : JsonFields) : JsonFields :=
  JsonFields.ofList
    [("merchantId", .jstr env.merchantId),
     ("merchantSiteId", .jstr env.merchantSiteId),
     ("sessionToken", .jstr sessionToken),
     ("clientRequestId", .jstr clientRequestId2),
     ("currency", .jstr currency),
     ("amount", .jstr amount),
     ("userTokenId", .jstr userTokenId),
     ("paymentOption", Json.objOf [("card", .jobj (cardOptionFields card (.jobj threeD)))]),
     ("deviceDetails", Json.objOf [("ipAddress", .jstr "192.168.1.1")])]

/-- `initBodyLog`: the spread copy of `initPaymentBody` whose
`paymentOption` is replaced by a card copy with only `cardNumber`
masked (`CVV` is spread through unchanged). -/
def initBodyLog (env : Env3DS)
    (sessionToken clientRequestId2 currency amount userTokenId : String)
    (card : CardInput) (threeD : JsonFields) : JsonFields :=
  (initPaymentBody env sessionToken clientRequestId2 currency amount userTokenId card
      threeD).set "paymentOption"
    (Json.objOf
      [("card", .jobj ((cardOptionFields card (.jobj threeD)).set "cardNumber"
          (.jstr ("****" ++ jsSliceNeg card.number 4))))])

/-- The initPayment step record `handle3DSPayment` pushes. -/
def initStepRec (env : Env3DS)
    (sessionToken clientRequestId2 currency amount userTokenId : String)
    (card : CardInput) (threeD : JsonFields)
    (initHttpStatus : Nat) (initData : JsonFields) : Step3DS :=
  { stepId := "initPayment", stepName := "Initialize Payment (3DS)",
    status := if jsStrictEqStr (initData.get "status") "SUCCESS" then "success" else "error",
    requestUrl := env.baseUrl ++ "/ppp/api/initPayment.do", requestMethod := "POST",
    requestBody := initBodyLog env sessionToken clientRequestId2 currency amount userTokenId
      card threeD,
    responseStatus := initHttpStatus, responseBody := initData }

/-- `checksum3`: the payment.do checksum of `handle3DSPayment`
(`[merchantId, merchantSiteId, clientRequestId3, amount, currency,
timestamp3, merchantKey]`, SHA-256). -/
def chargeChecksum (env : Env3DS) (clientRequestId3 amount currency timestamp3 : String) :
    String :=
  calculateChecksum
    [env.merchantId, env.merchantSiteId, clientRequestId3, amount, currency, timestamp3,
     env.merchantKey] .SHA256

/-- `card.holderName.split(' ')[0] || 'Test'`. -/
def holderFirstName (holderName : String) : String :=
  let h := (jsSplitChar ' ' holderName).getD 0 ""
  if h == "" then "Test" else h

/-- `card.holderName.split(' ').slice(1).join(' ') || 'User'`. -/
def holderLastName (holderName : String) : String :=
  let t := String.intercalate " " ((jsSplitChar ' ' holderName).drop 1)
  if t == "" then "User" else t

/-- `paymentBody` of `handle3DSPayment`'s payment.do step.  The
`threeDRequest` subobject (browser details, challenge preferences, …)
is built from the feature-test configuration a few lines above in the
source and is passed in opaquely — its contents play no role in the
checksum, masking or classification logic under verification.
`notificationUrl` is the defined case of the optional request field. -/
def chargePaymentBody (env : Env3DS)
    (sessionToken clientRequestId3 timestamp3 currency amount initTransactionId : String)
    (card : CardInput) (threeDRequest : Json) (notificationUrl : String) : JsonFields :=
  JsonFields.ofList
    [("sessionToken", .jstr sessionToken),
     ("merchantId", .jstr env.merchantId),
     ("merchantSiteId", .jstr env.merchantSiteId),
     ("clientRequestId", .jstr clientRequestId3),
     ("timeStamp", .jstr timestamp3),
     ("checksum", .jstr (chargeChecksum env clientRequestId3 amount currency timestamp3)),
     ("currency", .jstr currency),
     ("amount", .jstr amount),
     ("relatedTransactionId", .jstr initTransactionId),
     ("transactionType", .jstr "Auth"),
     ("paymentOption", Json.objOf [("card", .jobj (cardOptionFields card threeDRequest))]),
     ("billingAddress", Json.objOf
       [("firstName", .jstr (holderFirstName card.holderName)),
        ("lastName", .jstr (holderLastName card.holderName)),
        ("address", .jstr "123 Main St"),
        ("city", .jstr "London"),
        ("country", .jstr "GB"),
        ("email", .jstr "test@example.com")]),
     ("deviceDetails", Json.objOf [("ipAddress", .jstr "192.168.1.1")]),
     ("urlDetails", Json.objOf [("notificationUrl", .jstr notificationUrl)])]

/-- `paymentBodyLog`: the spread copy of `paymentBody` whose
`paymentOption` is replaced by a card copy with only `cardNumber`
masked — the `checksum` field and the card's `CVV` are spread through
unchanged. -/
def chargePaymentBodyLog (env : Env3DS)
    (sessionToken clientRequestId3 timestamp3 currency amount initTransactionId : String)
    (card : CardInput) (threeDRequest : Json) (notificationUrl : String) : JsonFields :=
  (chargePaymentBody env sessionToken clientRequestId3 timestamp3 currency amount
      initTransactionId card threeDRequest notificationUrl).set "paymentOption"
    (Json.objOf
      [("card", .jobj ((cardOptionFields card threeDRequest).set "cardNumber"
          (.jstr ("****" ++ jsSliceNeg card.number 4))))])

/-- The payment step's outcome classification in `handle3DSPayment`:
`redirect` as soon as `transactionStatus === 'REDIRECT'` (no ACS-URL or
cReq check), else `error` unless `status === 'SUCCESS'`. -/
def chargeStepStatus (paymentData : JsonFields) : String :=
  if jsStrictEqStr (paymentData.get "transactionStatus") "REDIRECT" then "redirect"
  else if !(jsStrictEqStr (paymentData.get "status") "SUCCESS") then "error"
  else "success"

/-- `paymentThreeD` of `handle3DSPayment`:
`(paymentData.paymentOption as R)?.card ? (…card).threeD : undefined`. -/
def chargePaymentThreeD (paymentData : JsonFields) : Option Json :=
  let card := (paymentData.get "paymentOption").bind fun po => jsMember po "card"
  if jsTruthy card then jsMember (card.getD .jnull) "threeD" else none

/-- `acsUrl = paymentThreeD?.acsUrl`. -/
def chargeAcsUrl (paymentData : JsonFields) : Option Json :=
  (chargePaymentThreeD paymentData).bind fun t => jsMember t "acsUrl"

/-- `cReq = paymentThreeD?.cReq`. -/
def chargeCReq (paymentData : JsonFields) : Option Json :=
  (chargePaymentThreeD paymentData).bind fun t => jsMember t "cReq"

/-- The flow-level decision of `handle3DSPayment` to return
`challenge_required`: `transactionStatus === 'REDIRECT' && acsUrl &&
cReq` — unlike the step's own status, this does require both challenge
parameters. -/
def chargeChallengeRequired (paymentData : JsonFields) : Bool :=
  jsStrictEqStr (paymentData.get "transactionStatus") "REDIRECT" &&
    jsTruthy (chargeAcsUrl paymentData) && jsTruthy (chargeCReq paymentData)

/-- The payment step record `handle3DSPayment` pushes: the retained
request body is `paymentBodyLog`. -/
def chargeStepRec (env : Env3DS)
    (sessionToken clientRequestId3 timestamp3 currency amount initTransactionId : String)
    (card : CardInput) (threeDRequest : Json) (notificationUrl : String)
    (paymentHttpStatus : Nat) (paymentData : JsonFields) : Step3DS :=
  { stepId := "payment", stepName := "Payment (3DS)",
    status := chargeStepStatus paymentData,
    requestUrl := env.baseUrl ++ "/ppp/api/payment.do", requestMethod := "POST",
    requestBody := chargePaymentBodyLog env sessionToken clientRequestId3 timestamp3 currency
      amount initTransactionId card threeDRequest notificationUrl,
    responseStatus := paymentHttpStatus, responseBody := paymentData }

/-! ## Supporting lemmas -/

theorem JsonFields.get_set_self : ∀ (fs : JsonFields) (k : String) (v : Json),
    (fs.set k v).get k = some v
  | .nil, k, v => by simp [JsonFields.set, JsonFields.get]
  | .cons k0 v0 t, k, v => by
      by_cases h : k0 = k
      · simp [JsonFields.set, JsonFields.get, h]
      · simp [JsonFields.set, JsonFields.get, h, JsonFields.get_set_self t k v]

theorem JsonFields.get_set_of_ne : ∀ (fs : JsonFields) (k k' : String) (v : Json),
    k' ≠ k → (fs.set k v).get k' = fs.get k'
  | .nil, k, k', v, h => by
      have hne : ¬(k = k') := fun hh => h hh.symm
      simp [JsonFields.set, JsonFields.get, hne]
  | .cons k0 v0 t, k, k', v, h => by
      by_cases h0 : k0 = k
      · subst h0
        have hne : ¬(k0 = k') := fun hh => h hh.symm
        simp [JsonFields.set, JsonFields.get, hne]
      · by_cases h1 : k0 = k'
        · subst h1
          simp [JsonFields.set, JsonFields.get, h0]
        · simp [JsonFields.set, JsonFields.get, h0, h1,
            JsonFields.get_set_of_ne t k k' v h]

/-! ## C1 -/

/-- The claim's reading of how one checksum field resolves (C1): the
caller secret for the `fromEnv` `merchantSecretKey` field; a
request-sourced field looked up by name in the request data; a required
field that is unresolved (or empty) contributing the empty string; an
optional unresolved field omitted entirely. -/
def claimFieldContribution (field : ChecksumField) (requestData : RequestData)
    (merchantSecretKey : String) : Option String :=
  if field.fromEnv && field.name == "merchantSecretKey" then some merchantSecretKey
  else if field.fromRequest then
    match rdGet requestData field.name with
    | some v => if field.required = true ∧ v = "" then some "" else some v
    | none => if field.required then some "" else none
  else if field.required then some "" else none

theorem resolveField_eq_claim (field : ChecksumField) (rd : RequestData) (secret : String) :
    resolveChecksumFieldValue field rd secret = claimFieldContribution field rd secret := by
  unfold resolveChecksumFieldValue claimFieldContribution
  by_cases hE : (field.fromEnv && field.name == "merchantSecretKey") = true
  · by_cases hReq : field.required = true
    · by_cases hs : secret = "" <;> simp [hE, hReq, hs]
    · simp [hE, hReq]
  · by_cases hR : field.fromRequest = true
    · cases hG : rdGet rd field.name with
      | none => by_cases hReq : field.required = true <;> simp [hE, hR, hG, hReq]
      | some v =>
          by_cases hReq : field.required = true
          · by_cases hv : v = "" <;> simp [hE, hR, hG, hReq, hv]
          · simp [hE, hR, hG, hReq]
    · by_cases hReq : field.required = true <;> simp [hE, hR, hReq]

/-- C1: for every endpoint name whose registry spec requires a checksum,
`calculateChecksumForEndpoint` returns — it cannot fail — the hash of
the values resolved from the spec's `checksumFields` in spec order (the
caller secret substituted for the `fromEnv` `merchantSecretKey` field,
request-sourced fields looked up by name, a required-but-unresolved
field contributing the empty string, an optional unresolved field
omitted); for an unknown endpoint it fails with the `UnknownEndpoint`
condition, and for a spec with `requiresChecksum = false` with the
`ChecksumNotApplicable` condition. -/
theorem calculateChecksumForEndpoint_spec_c1 (endpointName : String) (rd : RequestData)
    (secret : String) (alg : HashAlgorithm) :
    (∀ spec, getEndpointSpec endpointName = some spec → spec.requiresChecksum = true →
      calculateChecksumForEndpoint endpointName rd secret alg =
        .ok (calculateChecksum
          (spec.checksumFields.filterMap fun f => claimFieldContribution f rd secret) alg)) ∧
    (getEndpointSpec endpointName = none →
      calculateChecksumForEndpoint endpointName rd secret alg =
        .error (.UnknownEndpoint endpointName)) ∧
    (∀ spec, getEndpointSpec endpointName = some spec → spec.requiresChecksum = false →
      calculateChecksumForEndpoint endpointName rd secret alg =
        .error (.ChecksumNotApplicable endpointName)) := by
  refine ⟨?_, ?_, ?_⟩
  · intro spec hspec hrc
    unfold calculateChecksumForEndpoint
    rw [hspec]
    simp only [hrc, Bool.not_true, Bool.false_eq_true, if_false, ite_false]
    congr 1
    refine congrArg₂ _ ?_ rfl
    exact List.filterMap_congr fun f _ => resolveField_eq_claim f rd secret
  · intro hspec
    unfold calculateChecksumForEndpoint
    rw [hspec]
  · intro spec hspec hrc
    unfold calculateChecksumForEndpoint
    rw [hspec]
    simp [hrc]

/-- The first registry entry, spelled out for the C1 witness. -/
def getSessionTokenSpec : EndpointSpec :=
  { path := "/getSessionToken.do", method := "POST",
    description := "Creates a session token for subsequent API calls",
    checksumFields := [
      ⟨"merchantId", true, true, false⟩,
      ⟨"merchantSiteId", true, true, false⟩,
      ⟨"clientRequestId", true, true, false⟩,
      ⟨"timeStamp", true, true, false⟩,
      ⟨"merchantSecretKey", true, false, true⟩],
    requiresChecksum := true, requiresSessionToken := false,
    category := "session",
    sandboxUrl := "https://ppp-test.safecharge.com/ppp/api/v1/getSessionToken.do" }

set_option maxHeartbeats 2000000 in
/-- Witness for C1 at concrete inputs: the `getSessionToken` endpoint
(checksum required — the five spec fields resolve to the four request
values plus the secret, in spec order), an unknown endpoint name, and
the checksum-free `verify3d` endpoint. -/
theorem calculateChecksumForEndpoint_spec_c1_witness :
    calculateChecksumForEndpoint "getSessionToken"
        [("merchantId", "mid"), ("merchantSiteId", "sid"),
         ("clientRequestId", "cr1"), ("timeStamp", "ts1")] "sk" .SHA256 =
      .ok (calculateChecksum ["mid", "sid", "cr1", "ts1", "sk"] .SHA256) ∧
    calculateChecksumForEndpoint "noSuchEndpoint" [] "sk" .SHA256 =
      .error (.UnknownEndpoint "noSuchEndpoint") ∧
    calculateChecksumForEndpoint "verify3d" [] "sk" .SHA256 =
      .error (.ChecksumNotApplicable "verify3d") := by
  refine ⟨?_, ?_, ?_⟩
  · exact (calculateChecksumForEndpoint_spec_c1 "getSessionToken"
      [("merchantId", "mid"), ("merchantSiteId", "sid"),
       ("clientRequestId", "cr1"), ("timeStamp", "ts1")] "sk" .SHA256).1
      getSessionTokenSpec (by decide) (by decide)
  · exact (calculateChecksumForEndpoint_spec_c1 "noSuchEndpoint" [] "sk" .SHA256).2.1 (by decide)
  · exact (calculateChecksumForEndpoint_spec_c1 "verify3d" [] "sk" .SHA256).2.2
      (match getEndpointSpec "verify3d" with | some s => s | none => getSessionTokenSpec)
      (by decide) (by decide)

/-! ## C2 -/

/-- Counterexample to C2: for the value list `["a", "b"]` and position
1, including an empty-string entry at that position yields the *same*
checksum as omitting it — `calculateChecksum` filters empty entries out
before concatenation, so the hash is not presence-sensitive to empty
fields. -/
theorem calculateChecksum_empty_presence_c2_cex :
    calculateChecksum ["a", "", "b"] .SHA256 = calculateChecksum ["a", "b"] .SHA256 := rfl

/-- C2 (amended): for every ordered list of string values and every
position in it, the checksum obtained when an empty-string entry is
included at that position is *equal* to the checksum obtained when that
entry is omitted (for either algorithm): empty entries are filtered out
before concatenation, so a required-but-missing field included as the
empty string hashes identically to omitting it. -/
theorem calculateChecksum_empty_insensitive_c2 (l1 l2 : List String) (alg : HashAlgorithm) :
    calculateChecksum (l1 ++ "" :: l2) alg = calculateChecksum (l1 ++ l2) alg := by
  unfold calculateChecksum
  simp

/-! ## C3 -/

/-- C3 (amended): `verifyChecksum` returns `true` when handed exactly
the checksum `calculateChecksumForEndpoint` computes on the same inputs;
it returns `false` whenever the provided checksum differs from the
computed one *case-insensitively* — in particular under any single-
character alteration other than flipping a letter's case; and it never
throws: any internal failure (unknown endpoint, checksum not
applicable) yields `false`. -/
theorem verifyChecksum_spec_c3 (endpointName : String) (rd : RequestData) (secret : String)
    (alg : HashAlgorithm) :
    (∀ c, calculateChecksumForEndpoint endpointName rd secret alg = .ok c →
      verifyChecksum endpointName rd c secret alg = true) ∧
    (∀ c c', calculateChecksumForEndpoint endpointName rd secret alg = .ok c →
      jsToLowerCase c' ≠ jsToLowerCase c →
      verifyChecksum endpointName rd c' secret alg = false) ∧
    (∀ e, calculateChecksumForEndpoint endpointName rd secret alg = .error e →
      ∀ c, verifyChecksum endpointName rd c secret alg = false) := by
  refine ⟨?_, ?_, ?_⟩
  · intro c hc
    unfold verifyChecksum
    rw [hc]
    simp
  · intro c c' hc hne
    unfold verifyChecksum
    rw [hc]
    simpa using fun h => hne h.symm
  · intro e he c
    unfold verifyChecksum
    rw [he]

set_option maxHeartbeats 4000000 in
/-- Witness for C3: for the `getSessionToken` endpoint and concrete
request data, verification succeeds on the computed checksum, fails on a
checksum whose lowercase form differs, and fails for an unknown
endpoint. -/
theorem verifyChecksum_spec_c3_witness :
    verifyChecksum "getSessionToken"
        [("merchantId", "mid"), ("merchantSiteId", "sid"),
         ("clientRequestId", "cr1"), ("timeStamp", "ts1")]
        "be28c9ed29b4b02ee442c83ed8b1a6b91b7df71baa0fe357eafcfd5d6123cd8f" "sk" .SHA256 = true ∧
    verifyChecksum "getSessionToken"
        [("merchantId", "mid"), ("merchantSiteId", "sid"),
         ("clientRequestId", "cr1"), ("timeStamp", "ts1")]
        "0e28c9ed29b4b02ee442c83ed8b1a6b91b7df71baa0fe357eafcfd5d6123cd8f" "sk" .SHA256 = false ∧
    verifyChecksum "noSuchEndpoint" [] "anything" "sk" .SHA256 = false := by
  refine ⟨?_, ?_, ?_⟩
  · exact (verifyChecksum_spec_c3 "getSessionToken"
      [("merchantId", "mid"), ("merchantSiteId", "sid"),
       ("clientRequestId", "cr1"), ("timeStamp", "ts1")] "sk" .SHA256).1
      "be28c9ed29b4b02ee442c83ed8b1a6b91b7df71baa0fe357eafcfd5d6123cd8f" (by decide)
  · exact (verifyChecksum_spec_c3 "getSessionToken"
      [("merchantId", "mid"), ("merchantSiteId", "sid"),
       ("clientRequestId", "cr1"), ("timeStamp", "ts1")] "sk" .SHA256).2.1
      "be28c9ed29b4b02ee442c83ed8b1a6b91b7df71baa0fe357eafcfd5d6123cd8f"
      "0e28c9ed29b4b02ee442c83ed8b1a6b91b7df71baa0fe357eafcfd5d6123cd8f"
      (by decide) (by decide)
  · exact (verifyChecksum_spec_c3 "noSuchEndpoint" [] "sk" .SHA256).2.2
      (.UnknownEndpoint "noSuchEndpoint") (by decide) "anything"

/-- Number of positions at which two equal-length strings differ. -/
def diffCount (s t : String) : Nat :=
  (List.zip s.data t.data).countP fun p => p.1 != p.2

set_option maxHeartbeats 4000000 in
/-- Counterexample to C3 as stated: altering a single character of the
provided checksum — flipping the case of its first hex letter — makes
`verifyChecksum` return `true`, not `false`, because the compare is
case-insensitive.  The first conjunct pins the altered string to the
genuinely computed checksum of the `getSessionToken` endpoint. -/
theorem verifyChecksum_single_char_c3_cex :
    calculateChecksumForEndpoint "getSessionToken"
        [("merchantId", "mid"), ("merchantSiteId", "sid"),
         ("clientRequestId", "cr1"), ("timeStamp", "ts1")] "sk" .SHA256 =
      .ok "be28c9ed29b4b02ee442c83ed8b1a6b91b7df71baa0fe357eafcfd5d6123cd8f" ∧
    diffCount "be28c9ed29b4b02ee442c83ed8b1a6b91b7df71baa0fe357eafcfd5d6123cd8f"
        "Be28c9ed29b4b02ee442c83ed8b1a6b91b7df71baa0fe357eafcfd5d6123cd8f" = 1 ∧
    "Be28c9ed29b4b02ee442c83ed8b1a6b91b7df71baa0fe357eafcfd5d6123cd8f" ≠
      "be28c9ed29b4b02ee442c83ed8b1a6b91b7df71baa0fe357eafcfd5d6123cd8f" ∧
    verifyChecksum "getSessionToken"
        [("merchantId", "mid"), ("merchantSiteId", "sid"),
         ("clientRequestId", "cr1"), ("timeStamp", "ts1")]
        "Be28c9ed29b4b02ee442c83ed8b1a6b91b7df71baa0fe357eafcfd5d6123cd8f" "sk" .SHA256 = true := by
  refine ⟨?_, ?_, ?_, ?_⟩ <;> decide

/-! ## C6 -/

theorem webhookStoreInsert_eq_take (r : WebhookRecord) (store : List WebhookRecord)
    (h : store.length ≤ 100) : webhookStoreInsert r store = (r :: store).take 100 := by
  unfold webhookStoreInsert
  by_cases h1 : (r :: store).length > 100
  · rw [if_pos h1]
    have hlen : store.length = 100 := by simp at h1; omega
    rw [List.dropLast_eq_take]
    simp [hlen]
  · rw [if_neg h1]
    have h2 : (r :: store).length ≤ 100 := by omega
    exact (List.take_of_length_le h2).symm

theorem foldl_webhookStoreInsert (rs : List WebhookRecord) :
    ∀ (store : List WebhookRecord), store.length ≤ 100 →
      rs.foldl (fun st r => webhookStoreInsert r st) store =
        (rs.reverse ++ store).take 100 := by
  induction rs with
  | nil => intro store h; simp [List.take_of_length_le h]
  | cons r rest ih =>
      intro store h
      simp only [List.foldl_cons, List.reverse_cons, List.append_assoc]
      rw [webhookStoreInsert_eq_take r store h]
      rw [ih ((r :: store).take 100) (by simp)]
      rw [List.take_append_eq_append_take, List.take_append_eq_append_take, List.take_take]
      have hmin : min (100 - rest.reverse.length) 100 = 100 - rest.reverse.length :=
        Nat.min_eq_left (by omega)
      simp [hmin]

/-- C6: every insertion into the webhook store (webhook ingest and
internal DMN mirror run the identical code) prepends the new record at
the head; whenever the list length exceeds 100 the oldest (tail) record
is dropped; and hence inserting 101 distinct records into an empty store
leaves exactly 100, with the 1st-inserted record absent and the 101st at
the head. -/
theorem webhookStore_bounded_c6 :
    (∀ (r : WebhookRecord) (store : List WebhookRecord),
      (webhookStoreInsert r store).head? = some r) ∧
    (∀ (r : WebhookRecord) (store : List WebhookRecord), (r :: store).length > 100 →
      webhookStoreInsert r store = (r :: store).dropLast) ∧
    (∀ (rs : List WebhookRecord), rs.length = 101 → rs.Nodup →
      ((rs.foldl (fun st r => webhookStoreInsert r st) []).length = 100 ∧
       (∀ r1, rs.head? = some r1 →
         r1 ∉ rs.foldl (fun st r => webhookStoreInsert r st) []) ∧
       (∀ rN, rs.getLast? = some rN →
         (rs.foldl (fun st r => webhookStoreInsert r st) []).head? = some rN))) := by
  refine ⟨?_, ?_, ?_⟩
  · intro r store
    unfold webhookStoreInsert
    by_cases h1 : (r :: store).length > 100
    · rw [if_pos h1]
      match store with
      | [] => simp at h1
      | s0 :: rest => simp [List.dropLast]
    · rw [if_neg h1]
      rfl
  · intro r store h
    unfold webhookStoreInsert
    rw [if_pos h]
  · intro rs hlen hnd
    have hfold := foldl_webhookStoreInsert rs [] (by simp)
    rw [List.append_nil] at hfold
    match rs, hlen with
    | r1 :: rest, hlen =>
        have hrest : rest.length = 100 := by simp at hlen; omega
        have hrev : (r1 :: rest).reverse = rest.reverse ++ [r1] := by simp
        have htake : ((r1 :: rest).reverse).take 100 = rest.reverse := by
          rw [hrev]
          exact List.take_left' (by simp [hrest])
        rw [hfold, htake]
        refine ⟨by simp [hrest], ?_, ?_⟩
        · intro x hx
          simp only [List.head?_cons, Option.some_inj] at hx
          subst hx
          have hmem : r1 ∉ rest := (List.nodup_cons.mp hnd).1
          simpa using hmem
        · intro rN hN
          match rest, hrest with
          | b :: t, _ =>
              rw [List.getLast?_cons_cons] at hN
              rw [List.head?_reverse]
              exact hN

/-- The 101 distinct records used by the C6 witness. -/
def c6Records : List WebhookRecord :=
  (List.range 101).map fun i => { id := toString i, timestamp := "", payload := .nil }

set_option maxHeartbeats 2000000 in
/-- Witness for C6: inserting the 101 distinct records `c6Records` into
an empty store leaves 100 records, without the first-inserted record
(id "0") and with the last-inserted record (id "100") at the head. -/
theorem webhookStore_bounded_c6_witness :
    (c6Records.foldl (fun st r => webhookStoreInsert r st) []).length = 100 ∧
    ({ id := "0", timestamp := "", payload := .nil } : WebhookRecord) ∉
      c6Records.foldl (fun st r => webhookStoreInsert r st) [] ∧
    (c6Records.foldl (fun st r => webhookStoreInsert r st) []).head? =
      some { id := "100", timestamp := "", payload := .nil } := by
  have h := webhookStore_bounded_c6.2.2 c6Records (by decide) (by decide)
  exact ⟨h.1, h.2.1 _ (by decide), h.2.2 _ (by decide)⟩

/-! ## C7 -/

/-- Counterexample to C7 as stated: the normalized payload of a webhook
sent as `GET …?cres=` has a `cres` field *present* (with the empty
value), yet it is classified `"Unknown DMN"`, not a 3DS type — the
classification tests JS truthiness, not presence. -/
theorem classifyDmnType_present_empty_c7_cex :
    JsonFields.hasKey (JsonFields.ofList [("cres", .jstr "")]) "cres" = true ∧
    classifyDmnType (JsonFields.ofList [("cres", .jstr "")]) = "Unknown DMN" := by
  exact ⟨rfl, rfl⟩

/-- C7 (amended): classification assigns exactly one DMN type by first
match in this order, where a field counts only when its value is truthy
(non-empty): a truthy `cres` → `"3DS Error"` when the payload carries a
truthy `errorMessage` (which the form-encoded cres decoder sets when the
decoded text is not JSON) and `"3DS Challenge Response"` otherwise; else
a truthy `ppp_status` or `Status` → `"Payment DMN"`; else a truthy
`transactionId` or `TransactionID` → `"Transaction DMN"`; else
`"Unknown DMN"`. -/
theorem classifyDmnType_spec_c7 (payload : JsonFields) :
    (jsTruthy (payload.get "cres") = true →
      classifyDmnType payload =
        (if jsTruthy (payload.get "errorMessage") then "3DS Error"
         else "3DS Challenge Response")) ∧
    (jsTruthy (payload.get "cres") = false →
      (jsTruthy (payload.get "ppp_status") || jsTruthy (payload.get "Status")) = true →
      classifyDmnType payload = "Payment DMN") ∧
    (jsTruthy (payload.get "cres") = false →
      (jsTruthy (payload.get "ppp_status") || jsTruthy (payload.get "Status")) = false →
      (jsTruthy (payload.get "transactionId") || jsTruthy (payload.get "TransactionID")) = true →
      classifyDmnType payload = "Transaction DMN") ∧
    (jsTruthy (payload.get "cres") = false →
      (jsTruthy (payload.get "ppp_status") || jsTruthy (payload.get "Status")) = false →
      (jsTruthy (payload.get "transactionId") || jsTruthy (payload.get "TransactionID")) = false →
      classifyDmnType payload = "Unknown DMN") := by
  unfold classifyDmnType
  refine ⟨?_, ?_, ?_, ?_⟩
  · intro h1
    simp [h1]
  · intro h1 h2
    simp [h1, h2]
  · intro h1 h2 h3
    simp [h1, h2, h3]
  · intro h1 h2 h3
    simp [h1, h2, h3]

/-- Witness for C7: one payload per classification branch — a decodable
`cres` (challenge response), a `cres` with a decode-error message, a
`Status` payload, a `transactionId` payload, and an empty payload. -/
theorem classifyDmnType_spec_c7_witness :
    classifyDmnType (JsonFields.ofList [("cres", .jstr "eyJ9")]) = "3DS Challenge Response" ∧
    classifyDmnType (JsonFields.ofList
        [("cres", .jstr "SW52YWxpZA"), ("errorMessage", .jstr "Invalid RReq")]) = "3DS Error" ∧
    classifyDmnType (JsonFields.ofList [("Status", .jstr "APPROVED")]) = "Payment DMN" ∧
    classifyDmnType (JsonFields.ofList [("transactionId", .jstr "12345")]) = "Transaction DMN" ∧
    classifyDmnType .nil = "Unknown DMN" := by
  refine ⟨?_, ?_, ?_, ?_, ?_⟩
  · have h := (classifyDmnType_spec_c7 (JsonFields.ofList [("cres", .jstr "eyJ9")])).1
      (by decide)
    simpa using h
  · have h := (classifyDmnType_spec_c7 (JsonFields.ofList
      [("cres", .jstr "SW52YWxpZA"), ("errorMessage", .jstr "Invalid RReq")])).1 (by decide)
    simpa using h
  · exact (classifyDmnType_spec_c7 (JsonFields.ofList [("Status", .jstr "APPROVED")])).2.1
      (by decide) (by decide)
  · exact (classifyDmnType_spec_c7
      (JsonFields.ofList [("transactionId", .jstr "12345")])).2.2.1
      (by decide) (by decide) (by decide)
  · exact (classifyDmnType_spec_c7 JsonFields.nil).2.2.2 (by decide) (by decide) (by decide)

/-! ## C9 -/

theorem maskSensitiveData_get_paymentOption (data po card : JsonFields)
    (hpo : data.get "paymentOption" = some (.jobj po))
    (hcard : po.get "card" = some (.jobj card)) :
    (maskSensitiveData data).get "paymentOption" =
      some (.jobj (po.set "card" (.jobj (maskCardFields card)))) := by
  unfold maskSensitiveData
  by_cases hck : jsTruthy (data.get "checksum") = true
  · have h1 : (data.set "checksum" (.jstr "***masked***")).get "paymentOption" =
        some (.jobj po) := by
      rw [JsonFields.get_set_of_ne _ _ _ _ (by decide)]
      exact hpo
    simp only [hck, if_true, h1]
    simp only [jsTruthy, jsObjSpread, hcard, if_true]
    rw [JsonFields.get_set_self]
  · have hck' : jsTruthy (data.get "checksum") = false := by
      simpa using hck
    simp only [hck', Bool.false_eq_true, if_false, hpo]
    simp only [jsTruthy, jsObjSpread, hcard, if_true]
    rw [JsonFields.get_set_self]

theorem maskCardFields_get_cardNumber (card : JsonFields) (n : String)
    (hnum : card.get "cardNumber" = some (.jstr n)) (hne : n ≠ "") :
    (maskCardFields card).get "cardNumber" =
      some (.jstr ("****" ++ jsSliceNeg n 4)) := by
  unfold maskCardFields
  have htr2 : jsTruthy (some (Json.jstr n)) = true := by
    simp [jsTruthy, hne]
  simp only [hnum, Option.getD_some, jsToString, htr2, if_true]
  by_cases hcv : jsTruthy ((card.set "cardNumber"
      (.jstr ("****" ++ jsSliceNeg n 4))).get "CVV") = true
  · simp only [hcv, if_true]
    rw [JsonFields.get_set_of_ne _ _ _ _ (by decide), JsonFields.get_set_self]
  · have hcv' : jsTruthy ((card.set "cardNumber"
        (.jstr ("****" ++ jsSliceNeg n 4))).get "CVV") = false := by simpa using hcv
    simp only [hcv', Bool.false_eq_true, if_false]
    rw [JsonFields.get_set_self]

theorem maskSensitiveData_cardNumber (data po card : JsonFields) (n : String)
    (hpo : data.get "paymentOption" = some (.jobj po))
    (hcard : po.get "card" = some (.jobj card))
    (hnum : card.get "cardNumber" = some (.jstr n)) (hne : n ≠ "") :
    extractFromResponse (.jobj (maskSensitiveData data)) "paymentOption.card.cardNumber" =
      some (.jstr ("****" ++ jsSliceNeg n 4)) := by
  have hpm := maskSensitiveData_get_paymentOption data po card hpo hcard
  have hcn := maskCardFields_get_cardNumber card n hnum hne
  have hsplit : jsSplitChar '.' "paymentOption.card.cardNumber" =
      ["paymentOption", "card", "cardNumber"] := rfl
  unfold extractFromResponse
  rw [hsplit]
  simp only [List.foldl_cons, List.foldl_nil]
  simp only [jsMember, hpm]
  rw [JsonFields.get_set_self]
  simp only [jsMember, hcn]

/-- Counterexample to C9 as stated: masking a request body whose card
number is the 16-digit `"4000027891380961"` yields `"****0961"` — only
the last 4 digits stay visible, but the masked string has length 8,
*shorter* than the 16-character original, refuting "the masked
card-number string's length is unchanged or longer". -/
theorem maskSensitiveData_shortens_c9_cex :
    extractFromResponse
        (.jobj (maskSensitiveData (JsonFields.ofList
          [("paymentOption", Json.objOf [("card", Json.objOf
            [("cardNumber", .jstr "4000027891380961")])])])))
        "paymentOption.card.cardNumber" = some (.jstr "****0961") ∧
    ("****0961" : String).length < ("4000027891380961" : String).length := by
  exact ⟨by decide, by decide⟩

/-- C9 (amended): masking a request body whose
`paymentOption.card.cardNumber` is a non-empty string `n` replaces it by
`"****"` plus the last 4 characters of `n` — only the last 4 digits
remain visible, and for a card number of at least 4 digits the masked
string has length exactly 8 (so it is *shorter* than a 16-digit
original, not length-preserving as claimed).  The separate `maskPAN`
logging helper, by contrast, does preserve the length for 13+-digit
inputs, but keeps the first 6 characters visible as well as the last
4. -/
theorem maskCardNumber_last4_c9 :
    (∀ (data po card : JsonFields) (n : String),
      data.get "paymentOption" = some (.jobj po) →
      po.get "card" = some (.jobj card) →
      card.get "cardNumber" = some (.jstr n) →
      n ≠ "" →
      extractFromResponse (.jobj (maskSensitiveData data)) "paymentOption.card.cardNumber" =
        some (.jstr ("****" ++ jsSliceNeg n 4)) ∧
      (4 ≤ n.length → ("****" ++ jsSliceNeg n 4).length = 8)) ∧
    (∀ s : String, 13 ≤ s.length →
      (maskPAN s).length = s.length ∧ jsSlice0 (maskPAN s) 6 = jsSlice0 s 6) := by
  constructor
  · intro data po card n hpo hcard hnum hne
    refine ⟨maskSensitiveData_cardNumber data po card n hpo hcard hnum hne, ?_⟩
    intro h4
    have hlen : (jsSliceNeg n 4).length = 4 := by
      show (n.data.drop (n.data.length - 4)).length = 4
      rw [List.length_drop]
      have h4' : 4 ≤ n.data.length := h4
      omega
    rw [String.length_append, hlen]
    decide
  · intro s h13
    have hne : ¬(s == "" || s.length < 13) = true := by
      simp only [Bool.or_eq_true, beq_iff_eq, decide_eq_true_eq]
      rintro (rfl | hlt)
      · simp at h13
      · omega
    unfold maskPAN
    rw [if_neg hne]
    have hl6 : (jsSlice0 s 6).length = 6 := by
      show (s.data.take 6).length = 6
      rw [List.length_take]
      have h13' : 13 ≤ s.data.length := h13
      omega
    have hl4 : (jsSliceNeg s 4).length = 4 := by
      show (s.data.drop (s.data.length - 4)).length = 4
      rw [List.length_drop]
      have h13' : 13 ≤ s.data.length := h13
      omega
    have hlm : (String.mk (List.replicate (s.length - 10) (Char.ofNat 42))).length =
        s.length - 10 := by
      show (List.replicate (s.length - 10) (Char.ofNat 42)).length = s.length - 10
      rw [List.length_replicate]
    constructor
    · rw [String.length_append, String.length_append, hl6, hl4, hlm]
      omega
    · show String.mk ((jsSlice0 s 6 ++
        String.mk (List.replicate (s.length - 10) (Char.ofNat 42)) ++ jsSliceNeg s 4).data.take 6)
          = jsSlice0 s 6
      have hdata : (jsSlice0 s 6 ++
          String.mk (List.replicate (s.length - 10) (Char.ofNat 42)) ++ jsSliceNeg s 4).data =
          (jsSlice0 s 6).data ++
            ((String.mk (List.replicate (s.length - 10) (Char.ofNat 42))).data ++
              (jsSliceNeg s 4).data) := by
        simp [String.data_append]
      rw [hdata]
      have hl6' : ((jsSlice0 s 6).data).length = 6 := hl6
      rw [List.take_left' hl6']

/-- Witness for C9: the generic 16-digit Visa challenge test card. -/
theorem maskCardNumber_last4_c9_witness :
    extractFromResponse
        (.jobj (maskSensitiveData (JsonFields.ofList
          [("checksum", .jstr "abc123"),
           ("paymentOption", Json.objOf [("card", Json.objOf
             [("cardNumber", .jstr "4000027891380961"), ("CVV", .jstr "217")])])])))
        "paymentOption.card.cardNumber" =
      some (.jstr ("****" ++ jsSliceNeg "4000027891380961" 4)) ∧
    ("****" ++ jsSliceNeg "4000027891380961" 4).length = 8 ∧
    (maskPAN "4000027891380961").length = ("4000027891380961" : String).length := by
  have h := (maskCardNumber_last4_c9.1 (JsonFields.ofList
      [("checksum", .jstr "abc123"),
       ("paymentOption", Json.objOf [("card", Json.objOf
         [("cardNumber", .jstr "4000027891380961"), ("CVV", .jstr "217")])])])
    (JsonFields.ofList [("card", Json.objOf
      [("cardNumber", .jstr "4000027891380961"), ("CVV", .jstr "217")])])
    (JsonFields.ofList [("cardNumber", .jstr "4000027891380961"), ("CVV", .jstr "217")])
    "4000027891380961" (by decide) (by decide) (by decide) (by decide))
  have h2 := maskCardNumber_last4_c9.2 "4000027891380961" (by decide)
  exact ⟨h.1, h.2 (by decide), h2.1⟩

/-! ## C10 -/

/-- C10: when the outbound HTTP call throws, `executeStep` hands back
exactly the input context — neither the freshly generated
timestamp/clientRequestId meta values nor any response-path extraction
is written — together with a step result of status `error`, response
status 0, and the error text as the response body. -/
theorem executeStep_transport_failure_c10 (step : ScenarioStep) (context : RunContext)
    (ts cid mts mcid message : String) :
    (executeStep step context ⟨ts, cid, mts, mcid, .failure message⟩).2 = context ∧
    (executeStep step context ⟨ts, cid, mts, mcid, .failure message⟩).1.status = .error ∧
    (executeStep step context ⟨ts, cid, mts, mcid, .failure message⟩).1.responseStatus = 0 ∧
    (executeStep step context ⟨ts, cid, mts, mcid, .failure message⟩).1.responseBody =
      JsonFields.ofList [("error", .jstr message)] :=
  ⟨rfl, rfl, rfl, rfl⟩

/-! ## C5 -/

/-- Counterexample to C5 as stated: a gateway body with
`transactionStatus: 'REDIRECT'` and an ACS URL but *no* cReq — only one
of the two challenge parameters present — is still classified
`'redirect'` by the 3DS payment orchestrator's charge step, which tests
only `transactionStatus` (the claim says partial presence must NOT be
classified as a redirect). -/
theorem chargeStepStatus_partial_redirect_c5_cex :
    jsTruthy (chargeAcsUrl (JsonFields.ofList
      [("transactionStatus", .jstr "REDIRECT"),
       ("paymentOption", Json.objOf [("card", Json.objOf [("threeD", Json.objOf
         [("acsUrl", .jstr "https://acs.example/challenge")])])])])) = true ∧
    chargeCReq (JsonFields.ofList
      [("transactionStatus", .jstr "REDIRECT"),
       ("paymentOption", Json.objOf [("card", Json.objOf [("threeD", Json.objOf
         [("acsUrl", .jstr "https://acs.example/challenge")])])])]) = none ∧
    chargeStepStatus (JsonFields.ofList
      [("transactionStatus", .jstr "REDIRECT"),
       ("paymentOption", Json.objOf [("card", Json.objOf [("threeD", Json.objOf
         [("acsUrl", .jstr "https://acs.example/challenge")])])])]) = "redirect" := by
  exact ⟨by decide, by decide, by decide⟩

/-- C5 (amended): `executeStep` classifies exactly as the claim says —
`error` when the body signals an error status/code, `redirect` only when
no error is signalled AND `transactionStatus === 'REDIRECT'` AND both
the ACS URL and cReq are truthy at `paymentOption.card.threeD` (partial
presence falls through to success/error classification), else `success`
— but the 3DS payment orchestrator's charge step does NOT apply the
conjunction: it marks the step `redirect` whenever
`transactionStatus === 'REDIRECT'` (checked before its error test), and
only the flow-level `challenge_required` decision requires the ACS URL
and cReq as well. -/
theorem stepOutcomeClassification_c5 (step : ScenarioStep) (context : RunContext)
    (ts cid mts mcid : String) (st : Nat) (body : JsonFields) :
    (((executeStep step context ⟨ts, cid, mts, mcid, .ok st body⟩).1.status = .error ↔
        (jsStrictEqStr (body.get "status") "ERROR" ||
          jsTruthy (body.get "errCode")) = true) ∧
     ((executeStep step context ⟨ts, cid, mts, mcid, .ok st body⟩).1.status = .redirect ↔
        ((jsStrictEqStr (body.get "status") "ERROR" ||
           jsTruthy (body.get "errCode")) = false ∧
         (jsStrictEqStr (body.get "transactionStatus") "REDIRECT" &&
           jsTruthy (extractFromResponse (.jobj body) "paymentOption.card.threeD.acsUrl") &&
           jsTruthy (extractFromResponse (.jobj body) "paymentOption.card.threeD.cReq")) =
             true)) ∧
     ((executeStep step context ⟨ts, cid, mts, mcid, .ok st body⟩).1.status = .success ↔
        ((jsStrictEqStr (body.get "status") "ERROR" ||
           jsTruthy (body.get "errCode")) = false ∧
         (jsStrictEqStr (body.get "transactionStatus") "REDIRECT" &&
           jsTruthy (extractFromResponse (.jobj body) "paymentOption.card.threeD.acsUrl") &&
           jsTruthy (extractFromResponse (.jobj body) "paymentOption.card.threeD.cReq")) =
             false)) ∧
     ((executeStep step context ⟨ts, cid, mts, mcid, .ok st body⟩).1.status = .redirect →
        (executeStep step context
          ⟨ts, cid, mts, mcid, .ok st body⟩).1.threeDSChallenge.isSome = true)) ∧
    (∀ pd : JsonFields,
      (chargeStepStatus pd = "redirect" ↔
        jsStrictEqStr (pd.get "transactionStatus") "REDIRECT" = true) ∧
      (chargeStepStatus pd = "error" ↔
        (jsStrictEqStr (pd.get "transactionStatus") "REDIRECT" = false ∧
         jsStrictEqStr (pd.get "status") "SUCCESS" = false)) ∧
      (chargeStepStatus pd = "success" ↔
        (jsStrictEqStr (pd.get "transactionStatus") "REDIRECT" = false ∧
         jsStrictEqStr (pd.get "status") "SUCCESS" = true)) ∧
      (chargeChallengeRequired pd = true ↔
        (jsStrictEqStr (pd.get "transactionStatus") "REDIRECT" = true ∧
         jsTruthy (chargeAcsUrl pd) = true ∧ jsTruthy (chargeCReq pd) = true))) := by
  constructor
  · by_cases hE : (jsStrictEqStr (body.get "status") "ERROR" ||
        jsTruthy (body.get "errCode")) = true
    · refine ⟨?_, ?_, ?_, ?_⟩ <;> simp [executeStep, hE]
    · have hE' : (jsStrictEqStr (body.get "status") "ERROR" ||
          jsTruthy (body.get "errCode")) = false := by simpa using hE
      by_cases hR : (jsStrictEqStr (body.get "transactionStatus") "REDIRECT" &&
          jsTruthy (extractFromResponse (.jobj body) "paymentOption.card.threeD.acsUrl") &&
          jsTruthy (extractFromResponse (.jobj body) "paymentOption.card.threeD.cReq")) = true
      · refine ⟨?_, ?_, ?_, ?_⟩ <;> simp [executeStep, hE', hR]
      · have hR' : (jsStrictEqStr (body.get "transactionStatus") "REDIRECT" &&
            jsTruthy (extractFromResponse (.jobj body) "paymentOption.card.threeD.acsUrl") &&
            jsTruthy (extractFromResponse (.jobj body) "paymentOption.card.threeD.cReq")) =
              false := by simpa using hR
        refine ⟨?_, ?_, ?_, ?_⟩ <;> simp [executeStep, hE', hR']
  · intro pd
    by_cases hT : jsStrictEqStr (pd.get "transactionStatus") "REDIRECT" = true
    · by_cases hS : jsStrictEqStr (pd.get "status") "SUCCESS" = true <;>
        refine ⟨?_, ?_, ?_, ?_⟩ <;>
          simp [chargeStepStatus, chargeChallengeRequired, hT, hS]
    · have hT' : jsStrictEqStr (pd.get "transactionStatus") "REDIRECT" = false := by
        simpa using hT
      by_cases hS : jsStrictEqStr (pd.get "status") "SUCCESS" = true
      · refine ⟨?_, ?_, ?_, ?_⟩ <;>
          simp [chargeStepStatus, chargeChallengeRequired, hT', hS]
      · have hS' : jsStrictEqStr (pd.get "status") "SUCCESS" = false := by simpa using hS
        refine ⟨?_, ?_, ?_, ?_⟩ <;>
          simp [chargeStepStatus, chargeChallengeRequired, hT', hS']

/-- Witness for C5: a body with only `transactionStatus: 'REDIRECT'`
(no challenge parameters) classifies as `success` in `executeStep` but
as `"redirect"` in the orchestrator's charge step; an `ERROR` body
classifies as `error` in `executeStep`. -/
theorem stepOutcomeClassification_c5_witness :
    (executeStep ⟨"s1", "Step 1", "", "/x.do", "POST", [], .nil, [], [], none⟩
        ⟨⟨"m", "s", "k", "https://gw", none⟩, []⟩
        ⟨"t", "c", "t2", "c2", .ok 200 (JsonFields.ofList
          [("transactionStatus", .jstr "REDIRECT")])⟩).1.status = .success ∧
    chargeStepStatus (JsonFields.ofList [("transactionStatus", .jstr "REDIRECT")]) =
      "redirect" ∧
    (executeStep ⟨"s1", "Step 1", "", "/x.do", "POST", [], .nil, [], [], none⟩
        ⟨⟨"m", "s", "k", "https://gw", none⟩, []⟩
        ⟨"t", "c", "t2", "c2", .ok 200 (JsonFields.ofList
          [("status", .jstr "ERROR")])⟩).1.status = .error := by
  refine ⟨?_, ?_, ?_⟩
  · exact ((stepOutcomeClassification_c5 ⟨"s1", "Step 1", "", "/x.do", "POST", [], .nil, [], [],
      none⟩ ⟨⟨"m", "s", "k", "https://gw", none⟩, []⟩ "t" "c" "t2" "c2" 200
      (JsonFields.ofList [("transactionStatus", .jstr "REDIRECT")])).1.2.2.1.mpr
      ⟨by decide, by decide⟩)
  · exact ((stepOutcomeClassification_c5 ⟨"s1", "Step 1", "", "/x.do", "POST", [], .nil, [], [],
      none⟩ ⟨⟨"m", "s", "k", "https://gw", none⟩, []⟩ "t" "c" "t2" "c2" 200
      (JsonFields.ofList [("transactionStatus", .jstr "REDIRECT")])).2
      (JsonFields.ofList [("transactionStatus", .jstr "REDIRECT")])).1.mpr (by decide)
  · exact ((stepOutcomeClassification_c5 ⟨"s1", "Step 1", "", "/x.do", "POST", [], .nil, [], [],
      none⟩ ⟨⟨"m", "s", "k", "https://gw", none⟩, []⟩ "t" "c" "t2" "c2" 200
      (JsonFields.ofList [("status", .jstr "ERROR")])).1.1.mpr (by decide))

/-! ## C8 -/

theorem maskSensitiveData_get_checksum (data : JsonFields) :
    (maskSensitiveData data).get "checksum" =
      (if jsTruthy (data.get "checksum") = true then some (Json.jstr "***masked***")
       else data.get "checksum") := by
  unfold maskSensitiveData
  by_cases hck : jsTruthy (data.get "checksum") = true
  · simp only [hck, if_true]
    rcases hpo : (data.set "checksum" (Json.jstr "***masked***")).get "paymentOption" with _ | po
    · simp only [hpo]
      rw [JsonFields.get_set_self]
    · simp only [hpo]
      rcases hsp : (if jsTruthy (some po) = true then jsObjSpread po else none) with _ | poF
      · simp only [hsp]
        rw [JsonFields.get_set_self]
      · simp only [hsp]
        rw [JsonFields.get_set_of_ne _ _ _ _ (by decide), JsonFields.get_set_self]
  · have hck' : jsTruthy (data.get "checksum") = false := by simpa using hck
    simp only [hck', Bool.false_eq_true, if_false]
    rcases hpo : data.get "paymentOption" with _ | po
    · simp only [hpo]
    · simp only [hpo]
      rcases hsp : (if jsTruthy (some po) = true then jsObjSpread po else none) with _ | poF
      · simp only [hsp]
      · simp only [hsp]
        rw [JsonFields.get_set_of_ne _ _ _ _ (by decide)]

theorem maskSensitiveData_checksum_masked (data : JsonFields) (v : Json)
    (hv : (maskSensitiveData data).get "checksum" = some v)
    (ht : jsTruthy (some v) = true) : v = .jstr "***masked***" := by
  rw [maskSensitiveData_get_checksum] at hv
  by_cases hck : jsTruthy (data.get "checksum") = true
  · rw [if_pos hck] at hv
    exact (Option.some_inj.mp hv).symm
  · rw [if_neg hck] at hv
    rw [hv] at hck
    exact absurd ht hck

/-- C8 (amended): each StepResult retained by `executeStep` has been
passed through `maskSensitiveData`, so any truthy `checksum` entry of
its retained request body is the literal `"***masked***"`; but the 3DS
payment orchestrator does NOT mask its retained bodies this way — its
getSessionToken step retains the raw computed checksum verbatim, and its
payment step's `paymentBodyLog` masks only the card number, spreading
the raw checksum and the raw CVV through unchanged. -/
theorem maskedStepBodies_c8 :
    (∀ (step : ScenarioStep) (context : RunContext) (o : StepOracle) (v : Json),
      ((executeStep step context o).1.requestBody).get "checksum" = some v →
      jsTruthy (some v) = true → v = .jstr "***masked***") ∧
    (∀ (env : Env3DS) (crid1 ts1 : String) (st : Nat) (sessionData : JsonFields),
      (sessionStepRec env crid1 ts1 st sessionData).requestBody.get "checksum" =
        some (.jstr (sessionTokenChecksum env crid1 ts1))) ∧
    (∀ (env : Env3DS) (sessionToken crid3 ts3 currency amount initTid : String)
      (card : CardInput) (threeDRequest : Json) (notificationUrl : String) (st : Nat)
      (paymentData : JsonFields),
      (chargeStepRec env sessionToken crid3 ts3 currency amount initTid card threeDRequest
          notificationUrl st paymentData).requestBody.get "checksum" =
        some (.jstr (chargeChecksum env crid3 amount currency ts3)) ∧
      extractFromResponse
          (.jobj (chargeStepRec env sessionToken crid3 ts3 currency amount initTid card
            threeDRequest notificationUrl st paymentData).requestBody)
          "paymentOption.card.cardNumber" =
        some (.jstr ("****" ++ jsSliceNeg card.number 4)) ∧
      extractFromResponse
          (.jobj (chargeStepRec env sessionToken crid3 ts3 currency amount initTid card
            threeDRequest notificationUrl st paymentData).requestBody)
          "paymentOption.card.CVV" =
        some (.jstr card.cvv)) := by
  refine ⟨?_, ?_, ?_⟩
  · intro step context o v hv ht
    rcases o with ⟨ts, cid, mts, mcid, http⟩
    cases http with
    | failure m => exact maskSensitiveData_checksum_masked _ v hv ht
    | ok st body => exact maskSensitiveData_checksum_masked _ v hv ht
  · intro env crid1 ts1 st sessionData
    rfl
  · intro env sessionToken crid3 ts3 currency amount initTid card threeDRequest
      notificationUrl st paymentData
    exact ⟨rfl, rfl, rfl⟩

/-- Counterexample to C8 as stated: the getSessionToken step record the
3DS orchestrator retains carries the *raw* computed checksum — for the
concrete credentials below, the retained body's `checksum` field is the
actual SHA-256 value, not a masked placeholder. -/
theorem sessionStep_raw_checksum_c8_cex :
    (sessionStepRec ⟨"mid", "sid", "sk", "https://gw"⟩ "cr1" "ts1" 200
        (JsonFields.ofList [("status", .jstr "SUCCESS")])).requestBody.get "checksum" =
      some (.jstr "be28c9ed29b4b02ee442c83ed8b1a6b91b7df71baa0fe357eafcfd5d6123cd8f") ∧
    sessionTokenChecksum ⟨"mid", "sid", "sk", "https://gw"⟩ "cr1" "ts1" =
      "be28c9ed29b4b02ee442c83ed8b1a6b91b7df71baa0fe357eafcfd5d6123cd8f" ∧
    ("be28c9ed29b4b02ee442c83ed8b1a6b91b7df71baa0fe357eafcfd5d6123cd8f" : String) ≠
      "***masked***" := by
  refine ⟨?_, ?_, ?_⟩ <;> decide

/-- Witness for C8: a step whose resolved template carries a truthy
`checksum` value retains it masked. -/
theorem maskedStepBodies_c8_witness :
    ((executeStep ⟨"s1", "Step 1", "", "/x.do", "POST", [],
        JsonFields.ofList [("checksum", .jstr "abc123")], [], [], none⟩
        ⟨⟨"m", "s", "k", "https://gw", none⟩, []⟩
        ⟨"t", "c", "t2", "c2", .ok 200 .nil⟩).1.requestBody).get "checksum" =
      some (.jstr "***masked***") ∧
    (Json.jstr "***masked***") = .jstr "***masked***" := by
  refine ⟨by decide, ?_⟩
  exact maskedStepBodies_c8.1
    ⟨"s1", "Step 1", "", "/x.do", "POST", [],
      JsonFields.ofList [("checksum", .jstr "abc123")], [], [], none⟩
    ⟨⟨"m", "s", "k", "https://gw", none⟩, []⟩
    ⟨"t", "c", "t2", "c2", .ok 200 .nil⟩ (.jstr "***masked***") (by decide) (by decide)

/-! ## C4 -/

theorem executeStep_stepId (step : ScenarioStep) (context : RunContext) (o : StepOracle) :
    (executeStep step context o).1.stepId = step.id := by
  rcases o with ⟨ts, cid, mts, mcid, http⟩
  cases http <;> rfl

theorem executeStep_redirect_has_challenge (step : ScenarioStep) (context : RunContext)
    (o : StepOracle) :
    (executeStep step context o).1.status = .redirect →
    (executeStep step context o).1.threeDSChallenge.isSome = true := by
  rcases o with ⟨ts, cid, mts, mcid, http⟩
  cases http with
  | failure m =>
      intro h
      simp [executeStep] at h
  | ok st body =>
      intro h
      by_cases hE : (jsStrictEqStr (body.get "status") "ERROR" ||
          jsTruthy (body.get "errCode")) = true
      · simp [executeStep, hE] at h
      · have hE' : (jsStrictEqStr (body.get "status") "ERROR" ||
            jsTruthy (body.get "errCode")) = false := by simpa using hE
        by_cases hR : (jsStrictEqStr (body.get "transactionStatus") "REDIRECT" &&
            jsTruthy (extractFromResponse (.jobj body) "paymentOption.card.threeD.acsUrl") &&
            jsTruthy (extractFromResponse (.jobj body) "paymentOption.card.threeD.cReq")) = true
        · simp [executeStep, hE', hR]
        · have hR' : (jsStrictEqStr (body.get "transactionStatus") "REDIRECT" &&
              jsTruthy (extractFromResponse (.jobj body) "paymentOption.card.threeD.acsUrl") &&
              jsTruthy (extractFromResponse (.jobj body) "paymentOption.card.threeD.cReq")) =
                false := by simpa using hR
          simp [executeStep, hE', hR'] at h

theorem runScenarioSteps_error (oracle : Nat → StepOracle) :
    ∀ (steps : List ScenarioStep) (context : RunContext) (i : Nat),
      ∀ s ∈ (runScenarioSteps oracle steps context i).1, s.status = .error →
        (runScenarioSteps oracle steps context i).2.2 = .failed ∧
        (runScenarioSteps oracle steps context i).1.getLast? = some s := by
  intro steps
  induction steps with
  | nil =>
      intro context i s hs herr
      simp [runScenarioSteps] at hs
  | cons step rest ih =>
      intro context i s hs herr
      rcases hstep : executeStep step context (oracle i) with ⟨result, ctx2⟩
      by_cases hE : result.status = .error
      · simp only [runScenarioSteps, hstep, hE, if_true] at hs ⊢
        simp at hs
        subst hs
        simp
      · by_cases hRed : result.status = .redirect ∧ result.threeDSChallenge.isSome
        · simp only [runScenarioSteps, hstep, hE, if_false, hRed, if_true] at hs ⊢
          simp at hs
          subst hs
          rw [herr] at hRed
          exact absurd hRed.1 (by simp)
        · rcases hrec : runScenarioSteps oracle rest ctx2 (i + 1) with ⟨results, fc, fs⟩
          simp only [runScenarioSteps, hstep, hE, hRed, if_false, hrec] at hs ⊢
          rcases List.mem_cons.mp hs with rfl | hmem
          · exact absurd herr hE
          · have hih := ih ctx2 (i + 1) s (by rw [hrec]; exact hmem) herr
            rw [hrec] at hih
            refine ⟨hih.1, ?_⟩
            rcases results with _ | ⟨b, t⟩
            · simp at hih
            · rw [List.getLast?_cons_cons]
              exact hih.2

theorem runScenarioSteps_redirect (oracle : Nat → StepOracle) :
    ∀ (steps : List ScenarioStep) (context : RunContext) (i : Nat),
      ∀ s ∈ (runScenarioSteps oracle steps context i).1, s.status = .redirect →
        (runScenarioSteps oracle steps context i).2.2 = .challenge_required ∧
        (runScenarioSteps oracle steps context i).1.getLast? = some s := by
  intro steps
  induction steps with
  | nil =>
      intro context i s hs herr
      simp [runScenarioSteps] at hs
  | cons step rest ih =>
      intro context i s hs herr
      rcases hstep : executeStep step context (oracle i) with ⟨result, ctx2⟩
      by_cases hE : result.status = .error
      · simp only [runScenarioSteps, hstep, hE, if_true] at hs ⊢
        simp at hs
        subst hs
        rw [herr] at hE
        exact absurd hE (by simp)
      · by_cases hRed : result.status = .redirect ∧ result.threeDSChallenge.isSome
        · simp only [runScenarioSteps, hstep, hE, if_false, hRed, if_true] at hs ⊢
          simp at hs
          subst hs
          simp
        · rcases hrec : runScenarioSteps oracle rest ctx2 (i + 1) with ⟨results, fc, fs⟩
          simp only [runScenarioSteps, hstep, hE, hRed, if_false, hrec] at hs ⊢
          rcases List.mem_cons.mp hs with rfl | hmem
          · -- a redirect result always carries a challenge, contradicting the
            -- branch condition that let the loop continue
            have hch := executeStep_redirect_has_challenge step context (oracle i)
            rw [hstep] at hch
            exact absurd ⟨herr, hch herr⟩ hRed
          · have hih := ih ctx2 (i + 1) s (by rw [hrec]; exact hmem) herr
            rw [hrec] at hih
            refine ⟨hih.1, ?_⟩
            rcases results with _ | ⟨b, t⟩
            · simp at hih
            · rw [List.getLast?_cons_cons]
              exact hih.2

theorem runScenarioSteps_clean (oracle : Nat → StepOracle) :
    ∀ (steps : List ScenarioStep) (context : RunContext) (i : Nat),
      (∀ s ∈ (runScenarioSteps oracle steps context i).1,
        s.status ≠ .error ∧ s.status ≠ .redirect) →
      (runScenarioSteps oracle steps context i).2.2 = .completed ∧
      (runScenarioSteps oracle steps context i).1.map (fun r => r.stepId) =
        steps.map (fun st => st.id) := by
  intro steps
  induction steps with
  | nil =>
      intro context i _
      simp [runScenarioSteps]
  | cons step rest ih =>
      intro context i hclean
      rcases hstep : executeStep step context (oracle i) with ⟨result, ctx2⟩
      by_cases hE : result.status = .error
      · simp only [runScenarioSteps, hstep, hE, if_true] at hclean
        exact absurd hE (hclean result (by simp)).1
      · by_cases hRed : result.status = .redirect ∧ result.threeDSChallenge.isSome
        · simp only [runScenarioSteps, hstep, hE, if_false, hRed, if_true] at hclean
          exact absurd hRed.1 (hclean result (by simp)).2
        · rcases hrec : runScenarioSteps oracle rest ctx2 (i + 1) with ⟨results, fc, fs⟩
          simp only [runScenarioSteps, hstep, hE, hRed, if_false, hrec] at hclean ⊢
          have hih := ih ctx2 (i + 1) (by
            rw [hrec]
            intro s hmem
            exact hclean s (by simp [hmem]))
          rw [hrec] at hih
          refine ⟨hih.1, ?_⟩
          have hid : result.stepId = step.id := by
            have := executeStep_stepId step context (oracle i)
            rw [hstep] at this
            exact this
          simp [hid, hih.2]

/-- C4: for every scenario run, (a) a step result with status `error`
makes the final status `failed` and is the last retained result (no
later step executes); (b) a step result with status `redirect` makes the
final status `challenge_required` and is the last retained result; and
(c) when no executed step returned `error` or `redirect`, the final
status is `completed` with exactly one result per scenario step, in
scenario order. -/
theorem executeScenario_terminal_c4 (sc : ScenarioDef) (env : EnvConfig)
    (initialVars : List (String × Json)) (oracle : Nat → StepOracle) :
    (∀ s ∈ (executeScenarioFn sc env initialVars oracle).steps, s.status = .error →
      (executeScenarioFn sc env initialVars oracle).status = .failed ∧
      (executeScenarioFn sc env initialVars oracle).steps.getLast? = some s) ∧
    (∀ s ∈ (executeScenarioFn sc env initialVars oracle).steps, s.status = .redirect →
      (executeScenarioFn sc env initialVars oracle).status = .challenge_required ∧
      (executeScenarioFn sc env initialVars oracle).steps.getLast? = some s) ∧
    ((∀ s ∈ (executeScenarioFn sc env initialVars oracle).steps,
        s.status ≠ .error ∧ s.status ≠ .redirect) →
      (executeScenarioFn sc env initialVars oracle).status = .completed ∧
      (executeScenarioFn sc env initialVars oracle).steps.map (fun r => r.stepId) =
        sc.steps.map (fun st => st.id)) := by
  rcases hrun : runScenarioSteps oracle sc.steps ⟨env, initialVars⟩ 0 with ⟨results, fc, fs⟩
  have hshape :
      (executeScenarioFn sc env initialVars oracle).steps = results ∧
      (executeScenarioFn sc env initialVars oracle).status = fs := by
    simp [executeScenarioFn, hrun]
  refine ⟨?_, ?_, ?_⟩
  · intro s hs herr
    have h := runScenarioSteps_error oracle sc.steps ⟨env, initialVars⟩ 0 s
      (by rw [hrun]; rw [hshape.1] at hs; exact hs) herr
    rw [hrun] at h
    rw [hshape.1, hshape.2]
    exact h
  · intro s hs herr
    have h := runScenarioSteps_redirect oracle sc.steps ⟨env, initialVars⟩ 0 s
      (by rw [hrun]; rw [hshape.1] at hs; exact hs) herr
    rw [hrun] at h
    rw [hshape.1, hshape.2]
    exact h
  · intro hclean
    have h := runScenarioSteps_clean oracle sc.steps ⟨env, initialVars⟩ 0 (by
      rw [hrun]
      intro s hmem
      exact hclean s (by rw [hshape.1]; exact hmem))
    rw [hrun] at h
    rw [hshape.1, hshape.2]
    exact h

/-- Witness for C4: three one/two-step scenario runs against concrete
stub responses — an `ERROR` body halts the run as `failed` after its
first step, a full 3DS challenge body halts it as `challenge_required`,
and a clean `SUCCESS` run completes with one result per step. -/
theorem executeScenario_terminal_c4_witness :
    (executeScenarioFn
        ⟨"sc1", "Scenario 1", "", [],
          [⟨"a", "A", "", "/a.do", "POST", [], .nil, [], [], none⟩,
           ⟨"b", "B", "", "/b.do", "POST", [], .nil, [], [], none⟩]⟩
        ⟨"m", "s", "k", "https://gw", none⟩ []
        (fun _ => ⟨"t", "c", "t2", "c2",
          .ok 200 (JsonFields.ofList [("status", .jstr "ERROR")])⟩)).status = .failed ∧
    (executeScenarioFn
        ⟨"sc1", "Scenario 1", "", [],
          [⟨"a", "A", "", "/a.do", "POST", [], .nil, [], [], none⟩,
           ⟨"b", "B", "", "/b.do", "POST", [], .nil, [], [], none⟩]⟩
        ⟨"m", "s", "k", "https://gw", none⟩ []
        (fun _ => ⟨"t", "c", "t2", "c2",
          .ok 200 (JsonFields.ofList
            [("transactionStatus", .jstr "REDIRECT"),
             ("paymentOption", Json.objOf [("card", Json.objOf [("threeD", Json.objOf
               [("acsUrl", .jstr "https://acs.example"),
                ("cReq", .jstr "creq1")])])])])⟩)).status = .challenge_required ∧
    ((executeScenarioFn
        ⟨"sc1", "Scenario 1", "", [],
          [⟨"a", "A", "", "/a.do", "POST", [], .nil, [], [], none⟩,
           ⟨"b", "B", "", "/b.do", "POST", [], .nil, [], [], none⟩]⟩
        ⟨"m", "s", "k", "https://gw", none⟩ []
        (fun _ => ⟨"t", "c", "t2", "c2",
          .ok 200 (JsonFields.ofList [("status", .jstr "SUCCESS")])⟩)).status = .completed ∧
     (executeScenarioFn
        ⟨"sc1", "Scenario 1", "", [],
          [⟨"a", "A", "", "/a.do", "POST", [], .nil, [], [], none⟩,
           ⟨"b", "B", "", "/b.do", "POST", [], .nil, [], [], none⟩]⟩
        ⟨"m", "s", "k", "https://gw", none⟩ []
        (fun _ => ⟨"t", "c", "t2", "c2",
          .ok 200 (JsonFields.ofList [("status", .jstr "SUCCESS")])⟩)).steps.map
            (fun r => r.stepId) = ["a", "b"]) := by
  refine ⟨?_, ?_, ?_⟩
  · exact ((executeScenario_terminal_c4
      ⟨"sc1", "Scenario 1", "", [],
        [⟨"a", "A", "", "/a.do", "POST", [], .nil, [], [], none⟩,
         ⟨"b", "B", "", "/b.do", "POST", [], .nil, [], [], none⟩]⟩
      ⟨"m", "s", "k", "https://gw", none⟩ []
      (fun _ => ⟨"t", "c", "t2", "c2",
        .ok 200 (JsonFields.ofList [("status", .jstr "ERROR")])⟩)).1
      ⟨"a", "A", .error, "https://gw/a.do", "POST", .nil, 200,
        JsonFields.ofList [("status", .jstr "ERROR")], none⟩
      (by decide) (by decide)).1
  · exact ((executeScenario_terminal_c4
      ⟨"sc1", "Scenario 1", "", [],
        [⟨"a", "A", "", "/a.do", "POST", [], .nil, [], [], none⟩,
         ⟨"b", "B", "", "/b.do", "POST", [], .nil, [], [], none⟩]⟩
      ⟨"m", "s", "k", "https://gw", none⟩ []
      (fun _ => ⟨"t", "c", "t2", "c2",
        .ok 200 (JsonFields.ofList
          [("transactionStatus", .jstr "REDIRECT"),
           ("paymentOption", Json.objOf [("card", Json.objOf [("threeD", Json.objOf
             [("acsUrl", .jstr "https://acs.example"),
              ("cReq", .jstr "creq1")])])])])⟩)).2.1
      ⟨"a", "A", .redirect, "https://gw/a.do", "POST", .nil, 200,
        JsonFields.ofList
          [("transactionStatus", .jstr "REDIRECT"),
           ("paymentOption", Json.objOf [("card", Json.objOf [("threeD", Json.objOf
             [("acsUrl", .jstr "https://acs.example"),
              ("cReq", .jstr "creq1")])])])],
        some ⟨"https://acs.example", "creq1"⟩⟩
      (by decide) (by decide)).1
  · exact (executeScenario_terminal_c4
      ⟨"sc1", "Scenario 1", "", [],
        [⟨"a", "A", "", "/a.do", "POST", [], .nil, [], [], none⟩,
         ⟨"b", "B", "", "/b.do", "POST", [], .nil, [], [], none⟩]⟩
      ⟨"m", "s", "k", "https://gw", none⟩ []
      (fun _ => ⟨"t", "c", "t2", "c2",
        .ok 200 (JsonFields.ofList [("status", .jstr "SUCCESS")])⟩)).2.2 (by decide)
